import Mathlib

/-!
# Verification of the payment state machine and webhook reconciler

A shallow embedding, in Lean 4, of the behavioural core of the
`brie-b2b-payments` backend: the payment initiation protocol with its
idempotency key (`PaymentService.initiatePayment`), the asynchronous
processing pipeline (`PaymentService.processPaymentFlow` and its step
methods), the status projection (`PaymentService.getPaymentStatus`),
request validation (`validateAmount`, `validateIdempotencyKey`), and the
webhook reconciler (the `/webhooks/circle` route with its signature
verification, deduplication and per-event handlers).

Monetary amounts are modelled as rationals (the source uses JS numbers /
Prisma decimals); timestamps and the `Date.now` clock are modelled as a
natural-number counter threaded through the state; Prisma rows are lists
of records; each fallible operation returns `Except`.  The HMAC-SHA256
primitive from Node's `crypto` library is not re-implemented: it enters
the model as an explicit function parameter, while the hex decoding and
the length behaviour of `crypto.timingSafeEqual` (which throws when the
two buffers have different lengths) are modelled faithfully.
-/

namespace Brie

/-! ## Data model (mirrors the Prisma schema as used by the code) -/

/-- Payment lifecycle states (`PaymentStatus` enum). -/
inductive PaymentStatus where
  | PENDING
  | PROCESSING
  | COMPLETED
  | FAILED
deriving DecidableEq, Repr

/-- Transaction step types (`TransactionType` enum). -/
inductive TransactionType where
  | PAYMENT_IN
  | EXCHANGE_SGD_TO_USDC
  | EXCHANGE_USDC_TO_USD
  | PAYOUT
deriving DecidableEq, Repr

/-- Per-transaction states (`TransactionStatus` enum). -/
inductive TransactionStatus where
  | PENDING
  | CONFIRMED
  | FAILED
deriving DecidableEq, Repr

/-- Vendor states (`VendorStatus` enum). -/
inductive VendorStatus where
  | ACTIVE
  | INACTIVE
deriving DecidableEq, Repr

/-- Payout destination owned by a vendor (`BankAccount` model); only the
fields the payment pipeline reads are kept. -/
structure BankAccount where
  circleAccountId : Option String := none
deriving DecidableEq, Repr

/-- A vendor row (`Vendor` model), with its optional 1:1 bank account as
loaded by `include: ⟨bankAccount: true⟩`. -/
structure Vendor where
  id : String
  status : VendorStatus
  name : String := ""
  email : String := ""
  bankAccount : Option BankAccount := none
deriving DecidableEq, Repr

/-- A payment row (`Payment` model). -/
structure Payment where
  id : String
  idempotencyKey : String
  vendorId : String
  amountSgd : ℚ
  amountUsd : Option ℚ := none
  exchangeRate : Option ℚ := none
  status : PaymentStatus
  circlePaymentId : Option String := none
  customerReference : Option String := none
  description : Option String := none
  expectedSettlementTime : Option Nat := none
  actualSettlementTime : Option Nat := none
deriving DecidableEq, Repr

/-- A transaction row (`Transaction` model). -/
structure Transaction where
  id : String
  paymentId : String
  type : TransactionType
  status : TransactionStatus
  amount : ℚ
  currency : String
  fees : Option ℚ := none
  feeCurrency : Option String := none
  circleTransactionId : Option String := none
  blockchainTxHash : Option String := none
  createdAt : Nat
deriving DecidableEq, Repr

/-- A webhook event row (`WebhookEvent` model). -/
structure WebhookEvent where
  id : String
  circleEventId : String
  eventType : String
  payload : String
  processed : Bool
  processedAt : Option Nat := none
  relatedPaymentId : Option String := none
  relatedTransactionId : Option String := none
deriving DecidableEq, Repr

/-- The relational store: one list per table, rows in insertion order
(`prisma` access is modelled as list search / map / append). -/
structure DB where
  vendors : List Vendor := []
  payments : List Payment := []
  transactions : List Transaction := []
  webhookEvents : List WebhookEvent := []
deriving DecidableEq, Repr

/-- Whole-system state: the store plus a `Date.now`-style counter used
both as a clock (timestamps) and as the entropy for generated row ids and
external correlation ids. -/
structure Sys where
  db : DB
  now : Nat
deriving DecidableEq, Repr

/-! ## Store primitives (Prisma call semantics) -/

/-- `prisma.payment.findUnique(⟨where: ⟨id⟩⟩)`. -/
def findPayment (db : DB) (pid : String) : Option Payment :=
  db.payments.find? (fun p => p.id = pid)

/-- `prisma.payment.findUnique(⟨where: ⟨idempotencyKey⟩⟩)`. -/
def findPaymentByKey (db : DB) (key : String) : Option Payment :=
  db.payments.find? (fun p => p.idempotencyKey = key)

/-- `prisma.payment.update(⟨where: ⟨id⟩, data⟩)`: fails when no row has
the id, otherwise rewrites the matching row in place. -/
def updatePayment (db : DB) (pid : String) (f : Payment → Payment) :
    Except String DB :=
  match db.payments.find? (fun p => p.id = pid) with
  | none => .error "Record to update not found"
  | some _ =>
      .ok { db with
            payments := db.payments.map (fun p => if p.id = pid then f p else p) }

/-- `prisma.transaction.create`: appends a row. -/
def addTransaction (db : DB) (t : Transaction) : DB :=
  { db with transactions := db.transactions ++ [t] }

/-- `prisma.transaction.updateMany(⟨where, data⟩)`: rewrites every row
matching the predicate (zero matches is not an error). -/
def updateTransactionsWhere (db : DB) (q : Transaction → Bool)
    (f : Transaction → Transaction) : DB :=
  { db with transactions := db.transactions.map (fun t => if q t then f t else t) }

/-- `prisma.transaction.update(⟨where: ⟨id⟩, data⟩)`. -/
def updateTransaction (db : DB) (tid : String) (f : Transaction → Transaction) :
    Except String DB :=
  match db.transactions.find? (fun t => t.id = tid) with
  | none => .error "Record to update not found"
  | some _ =>
      .ok { db with
            transactions := db.transactions.map (fun t => if t.id = tid then f t else t) }

/-- The transactions belonging to one payment, in row (creation) order. -/
def txsOf (db : DB) (pid : String) : List Transaction :=
  db.transactions.filter (fun t => t.paymentId = pid)

/-! ## Rate provider and validation utilities -/

/-- `PaymentService.getExchangeRate`: the mock static lookup table; an
unknown ordered pair falls back to 1.0 (`mockRates[key] || 1.0`). -/
def getExchangeRate (fromCurrency toCurrency : String) : ℚ :=
  if fromCurrency = "SGD" ∧ toCurrency = "USDC" then 74 / 100
  else if fromCurrency = "USDC" ∧ toCurrency = "USD" then 1
  else if fromCurrency = "SGD" ∧ toCurrency = "USD" then 74 / 100
  else 1

/-- `validateAmount` from `utils/validation.ts`:
`amount > 0 && Number.isFinite(amount) && amount <= 1000000` (rationals
are always finite, so the middle conjunct is vacuous here). -/
def validateAmount (amount : ℚ) : Bool :=
  amount > 0 ∧ amount ≤ 1000000

/-- A character matched by the regex class `[0-9a-f]` under the `/i`
flag. -/
def isHexChar (c : Char) : Bool :=
  (('0' ≤ c ∧ c ≤ '9') ∨ ('a' ≤ c ∧ c ≤ 'f') ∨ ('A' ≤ c ∧ c ≤ 'F'))

/-- Split a character list on the literal dash, mirroring how the
anchored UUID regex decomposes its subject into the five dash-separated
groups (hex classes never match a dash). -/
def splitDash (l : List Char) : List (List Char) :=
  l.foldr
    (fun c acc =>
      if c = '-' then [] :: acc
      else
        match acc with
        | g :: gs => (c :: g) :: gs
        | [] => [[c]])
    [[]]

/-- `validateIdempotencyKey` from `utils/idempotency.ts`: the anchored
case-insensitive UUID-v4 regex
`^[0-9a-f]{8}-[0-9a-f]{4}-4[0-9a-f]{3}-[89ab][0-9a-f]{3}-[0-9a-f]{12}$`. -/
def validateIdempotencyKey (s : String) : Bool :=
  match splitDash s.data with
  | [g1, g2, g3, g4, g5] =>
      (decide (g1.length = 8) && g1.all isHexChar) &&
      (decide (g2.length = 4) && g2.all isHexChar) &&
      (match g3 with
       | c :: rest =>
           decide (c = '4') && decide (rest.length = 3) && rest.all isHexChar
       | [] => false) &&
      (match g4 with
       | c :: rest =>
           decide (c = '8' ∨ c = '9' ∨ c = 'a' ∨ c = 'b' ∨ c = 'A' ∨ c = 'B') &&
           decide (rest.length = 3) && rest.all isHexChar
       | [] => false) &&
      (decide (g5.length = 12) && g5.all isHexChar)
  | _ => false

/-- Stated from the spec's words for the refinement direction of C9: a
string is "UUID-shaped" when it consists of five dash-separated hex
groups of lengths 8-4-4-4-12 (no version or variant constraint). -/
def isUuidShaped (s : String) : Bool :=
  match splitDash s.data with
  | [g1, g2, g3, g4, g5] =>
      (decide (g1.length = 8) && g1.all isHexChar) &&
      (decide (g2.length = 4) && g2.all isHexChar) &&
      (decide (g3.length = 4) && g3.all isHexChar) &&
      (decide (g4.length = 4) && g4.all isHexChar) &&
      (decide (g5.length = 12) && g5.all isHexChar)
  | _ => false

/-! ## Payment initiation (`PaymentService.initiatePayment`) -/

/-- The request body of `POST /payments` (`CreatePaymentRequest`). -/
structure CreatePaymentRequest where
  vendorId : String
  amountSgd : ℚ
  customerReference : Option String := none
  description : Option String := none
deriving DecidableEq, Repr

/-- The response of `initiatePayment` (`CreatePaymentResponse`). -/
structure CreatePaymentResponse where
  paymentId : String
  status : PaymentStatus
  amountSgd : ℚ
  estimatedAmountUsd : Option ℚ
  expectedSettlementTime : Option Nat
  idempotencyKey : String
deriving DecidableEq, Repr

/-- Projection of a stored payment row into the initiation response, as
built in the `existingPayment` branch of `initiatePayment`. -/
def responseOfPayment (p : Payment) : CreatePaymentResponse :=
  { paymentId := p.id
    status := p.status
    amountSgd := p.amountSgd
    estimatedAmountUsd := p.amountUsd
    expectedSettlementTime := p.expectedSettlementTime
    idempotencyKey := p.idempotencyKey }

/-- Core of `PaymentService.initiatePayment`, up to (but not including)
the fire-and-forget launch of `processPaymentFlow`.  Returns the updated
state, the response, and — when a fresh payment row was created — the
payment id with which the asynchronous pipeline is scheduled.
Errors thrown inside the method are rethrown wrapped in
`Payment initiation failed: ...`; no store write precedes any throw. -/
def initiatePaymentCore (sys : Sys) (request : CreatePaymentRequest)
    (providedIdempotencyKey : Option String) :
    Sys × Except String (CreatePaymentResponse × Option String) :=
  -- const idempotencyKey = providedIdempotencyKey || generateIdempotencyKey()
  -- (the empty string is falsy in JS, so it also triggers generation)
  let idempotencyKey :=
    match providedIdempotencyKey with
    | some k => if k = "" then "uuid-" ++ toString sys.now else k
    | none => "uuid-" ++ toString sys.now
  match findPaymentByKey sys.db idempotencyKey with
  | some existingPayment =>
      -- return the stored row verbatim; no vendor lookup, no rate lookup,
      -- no write, no pipeline scheduling
      (sys, .ok (responseOfPayment existingPayment, none))
  | none =>
      match sys.db.vendors.find?
          (fun v => v.id = request.vendorId ∧ v.status = VendorStatus.ACTIVE) with
      | none =>
          (sys, .error "Payment initiation failed: Vendor not found or inactive")
      | some vendor =>
          match vendor.bankAccount with
          | none =>
              (sys, .error "Payment initiation failed: Vendor bank account not configured")
          | some _ =>
              let sgdToUsdcRate := getExchangeRate "SGD" "USDC"
              let usdcToUsdRate := getExchangeRate "USDC" "USD"
              let combinedRate := sgdToUsdcRate * usdcToUsdRate
              let estimatedAmountUsd := request.amountSgd * combinedRate
              -- new Date(Date.now() + 30 * 60 * 1000)
              let expectedSettlementTime := sys.now + 30 * 60 * 1000
              let pid := "pay-" ++ toString sys.now
              let payment : Payment :=
                { id := pid
                  idempotencyKey := idempotencyKey
                  vendorId := request.vendorId
                  amountSgd := request.amountSgd
                  amountUsd := some estimatedAmountUsd
                  exchangeRate := some combinedRate
                  status := PaymentStatus.PENDING
                  customerReference := request.customerReference
                  description := request.description
                  expectedSettlementTime := some expectedSettlementTime }
              ({ db := { sys.db with payments := sys.db.payments ++ [payment] }
                 now := sys.now + 1 },
               .ok (responseOfPayment payment, some pid))

/-- `PaymentService.initiatePayment` as seen by its caller: the response
only (the pipeline side effect is composed in `initiateAndProcess`). -/
def initiatePayment (sys : Sys) (request : CreatePaymentRequest)
    (providedIdempotencyKey : Option String) :
    Sys × Except String CreatePaymentResponse :=
  match initiatePaymentCore sys request providedIdempotencyKey with
  | (s, .ok (resp, _)) => (s, .ok resp)
  | (s, .error e) => (s, .error e)

/-! ## The asynchronous processing pipeline

Each private step method of `PaymentService` becomes a function
`Sys → Sys × Except String _`.  External faults (an exception thrown by
the provider call a step stands for — the spec's `UpstreamError`) are
injected through an oracle `env : Nat → Bool`: `env k = true` makes the
k-th provider-facing step throw before performing any write, which is
where the (mocked) external call sits in each method. -/

/-- `PaymentService.updatePaymentStatus`. -/
def updatePaymentStatusE (sys : Sys) (pid : String) (status : PaymentStatus) :
    Except String Sys :=
  (updatePayment sys.db pid (fun p => { p with status := status })).map
    (fun db => { sys with db := db })

/-- `PaymentService.createCirclePaymentIntent`: stores the generated
Circle payment-intent id on the payment row and records a PENDING
`PAYMENT_IN` transaction for the SGD receipt. -/
def createCirclePaymentIntent (env : Nat → Bool) (sys : Sys) (pid : String) :
    Sys × Except String String :=
  if env 0 then
    (sys, .error "Failed to create Circle payment intent: upstream error")
  else
    match findPayment sys.db pid with
    | none => (sys, .error "Payment not found")
    | some payment =>
        let circlePaymentId := "pi-" ++ toString sys.now
        match updatePayment sys.db pid
            (fun p => { p with circlePaymentId := some circlePaymentId }) with
        | .error e => (sys, .error e)
        | .ok db1 =>
            let t : Transaction :=
              { id := "tx-" ++ toString sys.now
                paymentId := pid
                type := TransactionType.PAYMENT_IN
                status := TransactionStatus.PENDING
                amount := payment.amountSgd
                currency := "SGD"
                circleTransactionId := some circlePaymentId
                createdAt := sys.now }
            ({ db := addTransaction db1 t, now := sys.now + 1 },
             .ok circlePaymentId)

/-- `PaymentService.simulatePaymentConfirmation`: after the mock delay,
confirms the matching `PAYMENT_IN` transaction and attaches a settlement
proof hash (`updateMany` — zero matches is not an error). -/
def simulatePaymentConfirmation (env : Nat → Bool) (sys : Sys) (pid : String)
    (circlePaymentId : String) : Sys × Except String Unit :=
  if env 1 then
    (sys, .error "upstream error during payment confirmation")
  else
    ({ db := updateTransactionsWhere sys.db
          (fun t =>
            t.paymentId = pid ∧ t.type = TransactionType.PAYMENT_IN ∧
              t.circleTransactionId = some circlePaymentId)
          (fun t =>
            { t with
              status := TransactionStatus.CONFIRMED
              blockchainTxHash := some ("0x" ++ toString sys.now) })
       now := sys.now },
     .ok ())

/-- `PaymentService.exchangeSgdToUsdc`: records a CONFIRMED exchange
transaction of `amountSgd × rate(SGD→USDC)` USDC with a 0.1% fee in
USDC.  The fee is recorded on the row only; it is not subtracted from
the transacted amount. -/
def exchangeSgdToUsdc (env : Nat → Bool) (sys : Sys) (pid : String) :
    Sys × Except String Unit :=
  if env 2 then
    (sys, .error "upstream error during SGD to USDC exchange")
  else
    match findPayment sys.db pid with
    | none => (sys, .error "Payment not found")
    | some payment =>
        let rate := getExchangeRate "SGD" "USDC"
        let usdcAmount := payment.amountSgd * rate
        let t : Transaction :=
          { id := "tx-" ++ toString sys.now
            paymentId := pid
            type := TransactionType.EXCHANGE_SGD_TO_USDC
            status := TransactionStatus.CONFIRMED
            amount := usdcAmount
            currency := "USDC"
            circleTransactionId := some ("exchange-sgd-usdc-" ++ toString sys.now)
            fees := some (usdcAmount * (1 / 1000))
            feeCurrency := some "USDC"
            createdAt := sys.now }
        ({ db := addTransaction sys.db t, now := sys.now + 1 }, .ok ())

/-- `PaymentService.exchangeUsdcToUsd`: reads the first
`EXCHANGE_SGD_TO_USDC` transaction of the payment, records a CONFIRMED
exchange of `usdcAmount × rate(USDC→USD)` USD with a 0.1% fee in USD,
and persists the realized amount onto `payment.amountUsd`. -/
def exchangeUsdcToUsd (env : Nat → Bool) (sys : Sys) (pid : String) :
    Sys × Except String Unit :=
  if env 3 then
    (sys, .error "upstream error during USDC to USD exchange")
  else
    match findPayment sys.db pid with
    | none => (sys, .error "Payment not found")
    | some _ =>
        match ((txsOf sys.db pid).filter
            (fun t => t.type = TransactionType.EXCHANGE_SGD_TO_USDC)).head? with
        | none => (sys, .error "USDC transaction not found")
        | some usdcTransaction =>
            let rate := getExchangeRate "USDC" "USD"
            let usdAmount := usdcTransaction.amount * rate
            let t : Transaction :=
              { id := "tx-" ++ toString sys.now
                paymentId := pid
                type := TransactionType.EXCHANGE_USDC_TO_USD
                status := TransactionStatus.CONFIRMED
                amount := usdAmount
                currency := "USD"
                circleTransactionId := some ("exchange-usdc-usd-" ++ toString sys.now)
                fees := some (usdAmount * (1 / 1000))
                feeCurrency := some "USD"
                createdAt := sys.now }
            let db1 := addTransaction sys.db t
            match updatePayment db1 pid (fun p => { p with amountUsd := some usdAmount }) with
            | .error e => ({ db := db1, now := sys.now + 1 }, .error e)
            | .ok db2 => ({ db := db2, now := sys.now + 1 }, .ok ())

/-- `PaymentService.payoutToVendor`: reads the first
`EXCHANGE_USDC_TO_USD` transaction, records a CONFIRMED `PAYOUT`
transaction of the same USD amount with a 0.2% fee in USD, and stamps
`payment.actualSettlementTime`. -/
def payoutToVendor (env : Nat → Bool) (sys : Sys) (pid : String) :
    Sys × Except String Unit :=
  if env 4 then
    (sys, .error "Payout failed: upstream error")
  else
    match findPayment sys.db pid with
    | none => (sys, .error "Payment not found")
    | some payment =>
        -- `include: ⟨vendor: ...⟩` on the required relation
        match sys.db.vendors.find? (fun v => v.id = payment.vendorId) with
        | none => (sys, .error "Vendor not found")
        | some vendor =>
            match vendor.bankAccount with
            | none => (sys, .error "Vendor bank account not found")
            | some _ =>
                match ((txsOf sys.db pid).filter
                    (fun t => t.type = TransactionType.EXCHANGE_USDC_TO_USD)).head? with
                | none => (sys, .error "USD transaction not found")
                | some usdTransaction =>
                    let t : Transaction :=
                      { id := "tx-" ++ toString sys.now
                        paymentId := pid
                        type := TransactionType.PAYOUT
                        status := TransactionStatus.CONFIRMED
                        amount := usdTransaction.amount
                        currency := "USD"
                        circleTransactionId := some ("payout-" ++ toString sys.now)
                        fees := some (usdTransaction.amount * (2 / 1000))
                        feeCurrency := some "USD"
                        createdAt := sys.now }
                    let db1 := addTransaction sys.db t
                    match updatePayment db1 pid
                        (fun p => { p with actualSettlementTime := some sys.now }) with
                    | .error e => ({ db := db1, now := sys.now + 1 }, .error e)
                    | .ok db2 => ({ db := db2, now := sys.now + 1 }, .ok ())

/-- The try-block of `PaymentService.processPaymentFlow`: the seven
sequenced steps, stopping at the first error. -/
def pipelineSteps (env : Nat → Bool) (sys : Sys) (pid : String) :
    Sys × Except String Unit :=
  match updatePaymentStatusE sys pid PaymentStatus.PROCESSING with
  | .error e => (sys, .error e)
  | .ok s1 =>
      match createCirclePaymentIntent env s1 pid with
      | (s2, .error e) => (s2, .error e)
      | (s2, .ok sgdPaymentIntentId) =>
          match simulatePaymentConfirmation env s2 pid sgdPaymentIntentId with
          | (s3, .error e) => (s3, .error e)
          | (s3, .ok _) =>
              match exchangeSgdToUsdc env s3 pid with
              | (s4, .error e) => (s4, .error e)
              | (s4, .ok _) =>
                  match exchangeUsdcToUsd env s4 pid with
                  | (s5, .error e) => (s5, .error e)
                  | (s5, .ok _) =>
                      match payoutToVendor env s5 pid with
                      | (s6, .error e) => (s6, .error e)
                      | (s6, .ok _) =>
                          match updatePaymentStatusE s6 pid PaymentStatus.COMPLETED with
                          | .error e => (s6, .error e)
                          | .ok s7 => (s7, .ok ())

/-- `PaymentService.processPaymentFlow`: on any step error, the catch
block marks the payment FAILED and rethrows the error. -/
def processPaymentFlow (env : Nat → Bool) (sys : Sys) (pid : String) :
    Sys × Except String Unit :=
  match pipelineSteps env sys pid with
  | (s, .ok _) => (s, .ok ())
  | (s, .error e) =>
      match updatePaymentStatusE s pid PaymentStatus.FAILED with
      | .ok s' => (s', .error e)
      | .error e2 => (s, .error e2)

/-- The `.catch` attached to the fire-and-forget pipeline launch inside
`initiatePayment`: a rejected pipeline promise is logged and answered
with one more FAILED status write; nothing propagates further. -/
def runPipelineCaught (env : Nat → Bool) (sys : Sys) (pid : String) : Sys :=
  match processPaymentFlow env sys pid with
  | (s, .ok _) => s
  | (s, .error _) =>
      match updatePaymentStatusE s pid PaymentStatus.FAILED with
      | .ok s' => s'
      | .error _ => s

/-- `initiatePayment` together with the detached pipeline it schedules:
the caller's response is fixed before the pipeline runs, so the returned
value never depends on the pipeline's outcome. -/
def initiateAndProcess (env : Nat → Bool) (sys : Sys)
    (request : CreatePaymentRequest) (providedIdempotencyKey : Option String) :
    Sys × Except String CreatePaymentResponse :=
  match initiatePaymentCore sys request providedIdempotencyKey with
  | (s, .error e) => (s, .error e)
  | (s, .ok (resp, none)) => (s, .ok resp)
  | (s, .ok (resp, some pid)) => (runPipelineCaught env s pid, .ok resp)

/-! ## Status projection (`PaymentService.getPaymentStatus`) -/

/-- Creation-time order on transaction rows (`orderBy: createdAt asc`). -/
def txLE (a b : Transaction) : Prop :=
  a.createdAt ≤ b.createdAt

instance : DecidableRel txLE := fun a b => by
  unfold txLE; infer_instance

instance : IsTotal Transaction txLE :=
  ⟨fun a b => Nat.le_total a.createdAt b.createdAt⟩

instance : IsTrans Transaction txLE :=
  ⟨fun _ _ _ h1 h2 => Nat.le_trans h1 h2⟩

/-- One entry of the `transactions` array in the status response
(`TransactionSummary`). -/
structure TransactionSummary where
  id : String
  type : TransactionType
  status : TransactionStatus
  amount : ℚ
  currency : String
  fees : Option ℚ
  blockchainTxHash : Option String
  createdAt : Nat
deriving DecidableEq, Repr

/-- Projection of a transaction row into its summary. -/
def summarize (t : Transaction) : TransactionSummary :=
  { id := t.id
    type := t.type
    status := t.status
    amount := t.amount
    currency := t.currency
    fees := t.fees
    blockchainTxHash := t.blockchainTxHash
    createdAt := t.createdAt }

/-- The status response (`PaymentStatusResponse`). -/
structure PaymentStatusResponse where
  paymentId : String
  status : PaymentStatus
  amountSgd : ℚ
  amountUsd : Option ℚ
  exchangeRate : Option ℚ
  vendorName : String
  vendorEmail : String
  transactions : List TransactionSummary
  expectedSettlementTime : Option Nat
  actualSettlementTime : Option Nat
deriving DecidableEq, Repr

/-- `PaymentService.getPaymentStatus`: read-only projection of the
payment, its vendor, and its transactions ordered by creation time
ascending. -/
def getPaymentStatus (sys : Sys) (pid : String) :
    Except String PaymentStatusResponse :=
  match findPayment sys.db pid with
  | none => .error "Payment not found"
  | some payment =>
      -- `include: ⟨vendor: true⟩` on a required relation: a dangling
      -- vendor reference cannot occur in a consistent store
      match sys.db.vendors.find? (fun v => v.id = payment.vendorId) with
      | none => .error "Payment not found"
      | some vendor =>
          .ok
            { paymentId := payment.id
              status := payment.status
              amountSgd := payment.amountSgd
              amountUsd := payment.amountUsd
              exchangeRate := payment.exchangeRate
              vendorName := vendor.name
              vendorEmail := vendor.email
              transactions :=
                (List.insertionSort txLE (txsOf sys.db pid)).map summarize
              expectedSettlementTime := payment.expectedSettlementTime
              actualSettlementTime := payment.actualSettlementTime }

/-! ## Webhook reconciler (`routes/webhooks.ts`, `POST /webhooks/circle`)

The HMAC-SHA256 primitive of Node's `crypto` library is not
re-implemented; it is passed in as a function `hmacHex secret payload`
returning the hex digest string.  Hex decoding of the two signature
strings (`Buffer.from(·, 'hex')`, which decodes greedily and silently
stops at the first invalid pair) and `crypto.timingSafeEqual` (which
throws when the two buffers differ in length) are modelled directly. -/

/-- The slice of `circleConfig` the webhook route reads. -/
structure CircleConfig where
  webhookSecret : Option String
deriving DecidableEq, Repr

/-- Value of one hex digit, `none` for a non-hex character. -/
def hexVal (c : Char) : Option Nat :=
  if '0' ≤ c ∧ c ≤ '9' then some (c.toNat - '0'.toNat)
  else if 'a' ≤ c ∧ c ≤ 'f' then some (c.toNat - 'a'.toNat + 10)
  else if 'A' ≤ c ∧ c ≤ 'F' then some (c.toNat - 'A'.toNat + 10)
  else none

/-- `Buffer.from(s, 'hex')`: decode pairs of hex digits greedily,
stopping (without error) at the first incomplete or invalid pair. -/
def hexDecodeGreedy : List Char → List Nat
  | c1 :: c2 :: rest =>
      match hexVal c1, hexVal c2 with
      | some a, some b => (a * 16 + b) :: hexDecodeGreedy rest
      | _, _ => []
  | _ => []

/-- `crypto.timingSafeEqual`: byte-wise comparison of two buffers;
throws (`Except.error`) when their lengths differ. -/
def timingSafeEqualE (a b : List Nat) : Except String Bool :=
  if a.length = b.length then .ok (decide (a = b))
  else .error "Input buffers must have the same byte length"

/-- `verifyWebhookSignature(payload, signature, secret)`: skips the
check for an empty secret; otherwise compares the hex-decoded signature
header with the hex-decoded HMAC digest.  A missing signature header
makes `Buffer.from(undefined, 'hex')` throw. -/
def verifyWebhookSignature (hmacHex : String → String → String)
    (payload : String) (signature : Option String) (secret : String) :
    Except String Bool :=
  if secret = "" then .ok true
  else
    let expectedSignature := hmacHex secret payload
    match signature with
    | none => .error "first argument must be of type string or an instance of Buffer"
    | some sig =>
        timingSafeEqualE (hexDecodeGreedy sig.data)
          (hexDecodeGreedy expectedSignature.data)

/-- HTTP outcome of the webhook route. -/
inductive IngestResult where
  /-- 200 with `⟨status⟩` = "processed" or "already_processed". -/
  | ok (status : String)
  /-- 401 `Invalid signature`. -/
  | unauthorized
  /-- 500 `Webhook processing failed` (the route's catch-all). -/
  | serverError
deriving DecidableEq, Repr

/-- One inbound webhook request: the `x-signature` header, the parsed
body fields `Type` / `Id` / `Data.id` / `Data.transactionHash`, and the
serialized body `JSON.stringify(req.body)` the signature is checked
against. -/
structure WebhookRequest where
  signature : Option String
  eventType : String
  eventId : String
  dataId : String
  dataTransactionHash : Option String := none
  payload : String
deriving DecidableEq, Repr

/-- `prisma.webhookEvent.update(⟨where: ⟨id⟩, data⟩)`. -/
def updateWebhookEvent (db : DB) (wid : String) (f : WebhookEvent → WebhookEvent) :
    Except String DB :=
  match db.webhookEvents.find? (fun w => w.id = wid) with
  | none => .error "Record to update not found"
  | some _ =>
      .ok { db with
            webhookEvents := db.webhookEvents.map
              (fun w => if w.id = wid then f w else w) }

/-- The signature-verification stage of the route: `none` means the
request passes on to deduplication, `some r` is an early HTTP answer
(401 on a mismatch, 500 when the comparison throws). -/
def sigStage (cfg : CircleConfig) (hmacHex : String → String → String)
    (req : WebhookRequest) : Option IngestResult :=
  match cfg.webhookSecret with
  | none => none        -- `circleConfig.webhookSecret && ...` short-circuits
  | some secret =>
      if secret = "" then none   -- the empty string is falsy in JS
      else
        match verifyWebhookSignature hmacHex req.payload req.signature secret with
        | .error _ => some IngestResult.serverError
        | .ok true => none
        | .ok false => some IngestResult.unauthorized

/-- `handlePaymentIntentSucceeded`: confirm the matching `PAYMENT_IN`
transaction, attach the proof hash, link the webhook event.  A missing
payment is logged and swallowed. -/
def handlePaymentIntentSucceeded (sys : Sys) (req : WebhookRequest)
    (webhookEventId : String) : Sys × Except String Unit :=
  match sys.db.payments.find? (fun p => p.circlePaymentId = some req.dataId) with
  | none => (sys, .ok ())
  | some payment =>
      let db1 := updateTransactionsWhere sys.db
        (fun t => t.paymentId = payment.id ∧ t.circleTransactionId = some req.dataId)
        (fun t =>
          { t with
            status := TransactionStatus.CONFIRMED
            blockchainTxHash := req.dataTransactionHash })
      match updateWebhookEvent db1 webhookEventId
          (fun w => { w with relatedPaymentId := some payment.id }) with
      | .error e => ({ sys with db := db1 }, .error e)
      | .ok db2 => ({ sys with db := db2 }, .ok ())

/-- `handlePaymentIntentFailed`: fail the matching transaction and the
owning payment, link the webhook event. -/
def handlePaymentIntentFailed (sys : Sys) (req : WebhookRequest)
    (webhookEventId : String) : Sys × Except String Unit :=
  match sys.db.payments.find? (fun p => p.circlePaymentId = some req.dataId) with
  | none => (sys, .ok ())
  | some payment =>
      let db1 := updateTransactionsWhere sys.db
        (fun t => t.paymentId = payment.id ∧ t.circleTransactionId = some req.dataId)
        (fun t => { t with status := TransactionStatus.FAILED })
      match updatePayment db1 payment.id
          (fun p => { p with status := PaymentStatus.FAILED }) with
      | .error e => ({ sys with db := db1 }, .error e)
      | .ok db2 =>
          match updateWebhookEvent db2 webhookEventId
              (fun w => { w with relatedPaymentId := some payment.id }) with
          | .error e => ({ sys with db := db2 }, .error e)
          | .ok db3 => ({ sys with db := db3 }, .ok ())

/-- `handleTransferCompleted`: confirm the matching transaction and
attach the proof hash. -/
def handleTransferCompleted (sys : Sys) (req : WebhookRequest)
    (webhookEventId : String) : Sys × Except String Unit :=
  match sys.db.transactions.find? (fun t => t.circleTransactionId = some req.dataId) with
  | none => (sys, .ok ())
  | some transaction =>
      match updateTransaction sys.db transaction.id
          (fun t =>
            { t with
              status := TransactionStatus.CONFIRMED
              blockchainTxHash := req.dataTransactionHash }) with
      | .error e => (sys, .error e)
      | .ok db1 =>
          match updateWebhookEvent db1 webhookEventId
              (fun w => { w with relatedTransactionId := some transaction.id }) with
          | .error e => ({ sys with db := db1 }, .error e)
          | .ok db2 => ({ sys with db := db2 }, .ok ())

/-- `handleTransferFailed`: fail the matching transaction; when that
transaction is the `PAYOUT` leg, also fail the owning payment. -/
def handleTransferFailed (sys : Sys) (req : WebhookRequest)
    (webhookEventId : String) : Sys × Except String Unit :=
  match sys.db.transactions.find? (fun t => t.circleTransactionId = some req.dataId) with
  | none => (sys, .ok ())
  | some transaction =>
      match updateTransaction sys.db transaction.id
          (fun t => { t with status := TransactionStatus.FAILED }) with
      | .error e => (sys, .error e)
      | .ok db1 =>
          match
            if transaction.type = TransactionType.PAYOUT then
              updatePayment db1 transaction.paymentId
                (fun p => { p with status := PaymentStatus.FAILED })
            else .ok db1
          with
          | .error e => ({ sys with db := db1 }, .error e)
          | .ok db2 =>
              match updateWebhookEvent db2 webhookEventId
                  (fun w => { w with relatedTransactionId := some transaction.id }) with
              | .error e => ({ sys with db := db2 }, .error e)
              | .ok db3 => ({ sys with db := db3 }, .ok ())

/-- `handlePayoutCompleted`: confirm the matching transaction, mark the
owning payment COMPLETED and stamp a fresh actual settlement time —
unconditionally, whatever the payment's current status. -/
def handlePayoutCompleted (sys : Sys) (req : WebhookRequest)
    (webhookEventId : String) : Sys × Except String Unit :=
  match sys.db.transactions.find? (fun t => t.circleTransactionId = some req.dataId) with
  | none => (sys, .ok ())
  | some transaction =>
      match updateTransaction sys.db transaction.id
          (fun t => { t with status := TransactionStatus.CONFIRMED }) with
      | .error e => (sys, .error e)
      | .ok db1 =>
          match updatePayment db1 transaction.paymentId
              (fun p =>
                { p with
                  status := PaymentStatus.COMPLETED
                  actualSettlementTime := some sys.now }) with
          | .error e => ({ sys with db := db1 }, .error e)
          | .ok db2 =>
              match updateWebhookEvent db2 webhookEventId
                  (fun w => { w with relatedTransactionId := some transaction.id }) with
              | .error e => ({ sys with db := db2 }, .error e)
              | .ok db3 => ({ sys with db := db3 }, .ok ())

/-- `handlePayoutFailed`: fail the matching transaction and the owning
payment. -/
def handlePayoutFailed (sys : Sys) (req : WebhookRequest)
    (webhookEventId : String) : Sys × Except String Unit :=
  match sys.db.transactions.find? (fun t => t.circleTransactionId = some req.dataId) with
  | none => (sys, .ok ())
  | some transaction =>
      match updateTransaction sys.db transaction.id
          (fun t => { t with status := TransactionStatus.FAILED }) with
      | .error e => (sys, .error e)
      | .ok db1 =>
          match updatePayment db1 transaction.paymentId
              (fun p => { p with status := PaymentStatus.FAILED }) with
          | .error e => ({ sys with db := db1 }, .error e)
          | .ok db2 =>
              match updateWebhookEvent db2 webhookEventId
                  (fun w => { w with relatedTransactionId := some transaction.id }) with
              | .error e => ({ sys with db := db2 }, .error e)
              | .ok db3 => ({ sys with db := db3 }, .ok ())

/-- `processWebhookEvent`: dispatch on the event-type tag; an unknown
type is a logged no-op. -/
def processWebhookEvent (sys : Sys) (req : WebhookRequest)
    (webhookEventId : String) : Sys × Except String Unit :=
  if req.eventType = "payment_intent.succeeded" then
    handlePaymentIntentSucceeded sys req webhookEventId
  else if req.eventType = "payment_intent.failed" then
    handlePaymentIntentFailed sys req webhookEventId
  else if req.eventType = "transfer.completed" then
    handleTransferCompleted sys req webhookEventId
  else if req.eventType = "transfer.failed" then
    handleTransferFailed sys req webhookEventId
  else if req.eventType = "payout.completed" then
    handlePayoutCompleted sys req webhookEventId
  else if req.eventType = "payout.failed" then
    handlePayoutFailed sys req webhookEventId
  else
    (sys, .ok ())

/-- Tail of the route after the dedup check: run the handler, then mark
the stored webhook event processed.  A handler error is answered with
500 and leaves the event unprocessed (its partial mutations persist —
there is no surrounding store transaction). -/
def ingestProcess (sys : Sys) (req : WebhookRequest) (webhookEventId : String) :
    Sys × IngestResult :=
  match processWebhookEvent sys req webhookEventId with
  | (s, .error _) => (s, IngestResult.serverError)
  | (s, .ok _) =>
      match updateWebhookEvent s.db webhookEventId
          (fun w => { w with processed := true, processedAt := some s.now }) with
      | .error _ => (s, IngestResult.serverError)
      | .ok db2 => ({ s with db := db2 }, IngestResult.ok "processed")

/-- The `POST /webhooks/circle` route: signature stage, dedup lookup,
upsert of the event row, handler dispatch, processed-flag update. -/
def ingest (cfg : CircleConfig) (hmacHex : String → String → String)
    (sys : Sys) (req : WebhookRequest) : Sys × IngestResult :=
  match sigStage cfg hmacHex req with
  | some r => (sys, r)
  | none =>
      match sys.db.webhookEvents.find? (fun w => w.circleEventId = req.eventId) with
      | some existingEvent =>
          if existingEvent.processed then
            (sys, IngestResult.ok "already_processed")
          else
            -- upsert, update branch: refresh the stored payload
            let db1 := { sys.db with
              webhookEvents := sys.db.webhookEvents.map
                (fun w =>
                  if w.circleEventId = req.eventId then { w with payload := req.payload }
                  else w) }
            ingestProcess { sys with db := db1 } req existingEvent.id
      | none =>
          -- upsert, create branch
          let we : WebhookEvent :=
            { id := "wh-" ++ toString sys.now
              circleEventId := req.eventId
              eventType := req.eventType
              payload := req.payload
              processed := false }
          let db1 := { sys.db with webhookEvents := sys.db.webhookEvents ++ [we] }
          ingestProcess { sys with db := db1 } req we.id

/-! ## The `POST /payments` route (`routes/payments.ts`) -/

/-- HTTP outcome of `POST /payments`. -/
inductive RouteResult where
  /-- 400, either a validation error or a rethrown service error. -/
  | badRequest (msg : String)
  /-- 201 with the initiation response. -/
  | created (resp : CreatePaymentResponse)
deriving DecidableEq, Repr

/-- The route's amount gate `!amountSgd || !validateAmount(amountSgd)`
(`0` is falsy in JS, which the first disjunct makes explicit). -/
def amountRejected (amountSgd : ℚ) : Bool :=
  amountSgd = 0 ∨ ¬ validateAmount amountSgd

/-- The `POST /payments` handler.  The `Idempotency-Key` header is
modelled as `Option String` where `none` stands for a falsy header
value (absent or the empty string): the code only ever tests the header
for truthiness (`providedIdempotencyKey && ...` in the route,
`providedIdempotencyKey || generateIdempotencyKey()` in the service), so
the two are indistinguishable to it. -/
def paymentsPost (env : Nat → Bool) (sys : Sys) (vendorId : String)
    (amountSgd : ℚ) (customerReference description : Option String)
    (providedIdempotencyKey : Option String) : Sys × RouteResult :=
  if vendorId = "" then (sys, RouteResult.badRequest "vendorId is required")
  else if amountRejected amountSgd then
    (sys, RouteResult.badRequest "Valid amountSgd is required (must be > 0 and <= 1,000,000)")
  else if (match providedIdempotencyKey with
           | some key => ¬ validateIdempotencyKey key
           | none => false : Bool) then
    (sys, RouteResult.badRequest "Invalid idempotency key format (must be UUID)")
  else
    match initiateAndProcess env sys
        { vendorId := vendorId
          amountSgd := amountSgd
          customerReference := customerReference
          description := description }
        providedIdempotencyKey with
    | (s, .ok resp) => (s, RouteResult.created resp)
    | (s, .error e) => (s, RouteResult.badRequest e)

/-! ## Generic list lemmas about the store primitives -/

theorem find?_map_invariant {α : Type} (q : α → Bool) (g : α → α)
    (hg : ∀ a, q (g a) = q a) :
    ∀ l : List α, (l.map g).find? q = (l.find? q).map g := by
  intro l
  induction l with
  | nil => simp
  | cons a l ih =>
      by_cases h : q a = true
      · simp [List.find?_cons, hg, h]
      · simp only [Bool.not_eq_true] at h
        simp [List.find?_cons, hg, h, ih]

theorem find?_map_update {α : Type} (q : α → Bool) (f : α → α)
    (hf : ∀ a, q a = true → q (f a) = true) (l : List α) :
    (l.map (fun a => if q a then f a else a)).find? q =
      (l.find? q).map (fun a => if q a then f a else a) := by
  apply find?_map_invariant
  intro a
  by_cases h : q a = true
  · simp [h, hf a h]
  · simp only [Bool.not_eq_true] at h
    simp [h]

theorem find?_append_of_none {α : Type} (q : α → Bool) (l : List α) (a : α)
    (h : l.find? q = none) :
    (l ++ [a]).find? q = if q a then some a else none := by
  induction l with
  | nil =>
      simp only [List.nil_append, List.find?]
      by_cases hq : q a = true
      · simp [hq]
      · simp only [Bool.not_eq_true] at hq
        simp [hq]
  | cons b l ih =>
      rw [List.find?_cons] at h
      by_cases hb : q b = true
      · simp [hb] at h
      · simp only [Bool.not_eq_true] at hb
        simp only [hb, cond_false] at h
        simp [List.find?_cons, hb, ih h]

theorem map_if_of_all_neg {α : Type} (q : α → Bool) (f : α → α) (l : List α)
    (h : ∀ a ∈ l, q a = false) :
    l.map (fun a => if q a then f a else a) = l := by
  induction l with
  | nil => rfl
  | cons a l ih =>
      simp only [List.map_cons, h a (List.mem_cons_self a l), if_neg, Bool.false_eq_true,
        not_false_iff, List.cons.injEq, true_and]
      exact ih (fun b hb => h b (List.mem_cons_of_mem a hb))

/-! ## What the pipeline preserves

Every store mutation the pipeline performs rewrites payment rows in
place (never touching `id` or `idempotencyKey`), appends transaction
rows or rewrites them in place (never touching their `id`), and leaves
the vendor table alone.  `Preserves` packages this; it is reflexive and
transitive and holds across every pipeline function. -/

/-- The payments table evolves only by an in-place rewrite that keeps
each row's `id` and `idempotencyKey`. -/
def PaymentsRefine (P Q : List Payment) : Prop :=
  ∃ g : Payment → Payment,
    Q = P.map g ∧ ∀ p, (g p).id = p.id ∧ (g p).idempotencyKey = p.idempotencyKey

/-- The transactions table evolves only by an id-keeping in-place
rewrite plus appends at the end (append-only, no deletion). -/
def TxExtend (T U : List Transaction) : Prop :=
  ∃ (g : Transaction → Transaction) (l : List Transaction),
    U = T.map g ++ l ∧ ∀ t, (g t).id = t.id

/-- State evolution respected by every pipeline step. -/
def Preserves (s s' : Sys) : Prop :=
  PaymentsRefine s.db.payments s'.db.payments ∧
    TxExtend s.db.transactions s'.db.transactions ∧
    s'.db.vendors = s.db.vendors

theorem paymentsRefine_refl (P : List Payment) : PaymentsRefine P P :=
  ⟨id, by simp, fun p => ⟨Eq.refl p.id, Eq.refl p.idempotencyKey⟩⟩

theorem paymentsRefine_trans {P Q R : List Payment}
    (h1 : PaymentsRefine P Q) (h2 : PaymentsRefine Q R) : PaymentsRefine P R := by
  obtain ⟨g1, hQ, hg1⟩ := h1
  obtain ⟨g2, hR, hg2⟩ := h2
  refine ⟨g2 ∘ g1, ?_, ?_⟩
  · simp [hR, hQ, List.map_map]
  · intro p
    exact ⟨(hg2 (g1 p)).1.trans (hg1 p).1, (hg2 (g1 p)).2.trans (hg1 p).2⟩

theorem txExtend_refl (T : List Transaction) : TxExtend T T :=
  ⟨id, [], by simp, fun t => Eq.refl t.id⟩

theorem txExtend_trans {T U V : List Transaction}
    (h1 : TxExtend T U) (h2 : TxExtend U V) : TxExtend T V := by
  obtain ⟨g1, l1, hU, hg1⟩ := h1
  obtain ⟨g2, l2, hV, hg2⟩ := h2
  refine ⟨g2 ∘ g1, l1.map g2 ++ l2, ?_, ?_⟩
  · simp [hV, hU, List.map_append, List.map_map, List.append_assoc]
  · intro t
    exact (hg2 (g1 t)).trans (hg1 t)

theorem preserves_refl (s : Sys) : Preserves s s :=
  ⟨paymentsRefine_refl _, txExtend_refl _, Eq.refl s.db.vendors⟩

theorem preserves_trans {s t u : Sys} (h1 : Preserves s t) (h2 : Preserves t u) :
    Preserves s u :=
  ⟨paymentsRefine_trans h1.1 h2.1, txExtend_trans h1.2.1 h2.2.1, h2.2.2.trans h1.2.2⟩

theorem refine_updatePayment {db db' : DB} {pid : String} {f : Payment → Payment}
    (h : updatePayment db pid f = .ok db') :
    db'.payments = db.payments.map (fun p => if p.id = pid then f p else p) ∧
      db'.transactions = db.transactions ∧ db'.vendors = db.vendors ∧
      db'.webhookEvents = db.webhookEvents := by
  unfold updatePayment at h
  cases hfind : db.payments.find? (fun p => p.id = pid) with
  | none => rw [hfind] at h; cases h
  | some q =>
      rw [hfind] at h
      cases h
      exact ⟨rfl, rfl, rfl, rfl⟩

theorem preserves_mapPayments (s : Sys) (db' : DB) (pid : String)
    (f : Payment → Payment)
    (hf : ∀ p, (f p).id = p.id ∧ (f p).idempotencyKey = p.idempotencyKey)
    (h : updatePayment s.db pid f = .ok db') (n : Nat) :
    Preserves s { db := db', now := n } := by
  obtain ⟨hP, hT, hV, _⟩ := refine_updatePayment h
  refine ⟨⟨fun p => if p.id = pid then f p else p, hP, ?_⟩, ?_, hV⟩
  · intro p
    dsimp only
    by_cases hp : p.id = pid
    · rw [if_pos hp]
      exact hf p
    · rw [if_neg hp]
      exact ⟨Eq.refl p.id, Eq.refl p.idempotencyKey⟩
  · rw [hT]
    exact txExtend_refl _

theorem preserves_updatePaymentStatusE {s s' : Sys} {pid : String}
    {st : PaymentStatus} (h : updatePaymentStatusE s pid st = .ok s') :
    Preserves s s' := by
  unfold updatePaymentStatusE at h
  cases hup : updatePayment s.db pid (fun p => { p with status := st }) with
  | error e => rw [hup] at h; cases h
  | ok db' =>
      rw [hup] at h
      cases h
      exact preserves_mapPayments s db' pid (fun p => { p with status := st })
        (fun p => ⟨rfl, rfl⟩) hup s.now

theorem preserves_addTx_only (s : Sys) (t : Transaction) (n : Nat) :
    Preserves s { db := addTransaction s.db t, now := n } := by
  refine ⟨paymentsRefine_refl _, ⟨id, [t], ?_, fun u => Eq.refl u.id⟩, Eq.refl _⟩
  simp [addTransaction]

theorem preserves_createCirclePaymentIntent (env : Nat → Bool) (s : Sys)
    (pid : String) : Preserves s (createCirclePaymentIntent env s pid).1 := by
  unfold createCirclePaymentIntent
  by_cases h0 : env 0 = true
  · rw [if_pos h0]
    exact preserves_refl s
  · rw [if_neg h0]
    cases hfp : findPayment s.db pid with
    | none => exact preserves_refl s
    | some payment =>
        cases hup : updatePayment s.db pid
            (fun p => { p with circlePaymentId := some ("pi-" ++ toString s.now) }) with
        | error e =>
            simp only [hup]
            exact preserves_refl s
        | ok db1 =>
            simp only [hup]
            refine preserves_trans
              (preserves_mapPayments s db1 pid
                (fun p => { p with circlePaymentId := some ("pi-" ++ toString s.now) })
                (fun p => ⟨rfl, rfl⟩) hup s.now) ?_
            exact preserves_addTx_only { db := db1, now := s.now }
              { id := "tx-" ++ toString s.now
                paymentId := pid
                type := TransactionType.PAYMENT_IN
                status := TransactionStatus.PENDING
                amount := payment.amountSgd
                currency := "SGD"
                circleTransactionId := some ("pi-" ++ toString s.now)
                createdAt := s.now } (s.now + 1)

theorem preserves_simulatePaymentConfirmation (env : Nat → Bool) (s : Sys)
    (pid cpi : String) :
    Preserves s (simulatePaymentConfirmation env s pid cpi).1 := by
  unfold simulatePaymentConfirmation
  by_cases h1 : env 1 = true
  · rw [if_pos h1]
    exact preserves_refl s
  · rw [if_neg h1]
    refine ⟨paymentsRefine_refl _,
      ⟨fun t =>
        if (t.paymentId = pid ∧ t.type = TransactionType.PAYMENT_IN ∧
            t.circleTransactionId = some cpi : Bool) then
          { t with
            status := TransactionStatus.CONFIRMED
            blockchainTxHash := some ("0x" ++ toString s.now) }
        else t,
       [], ?_, fun u => ?_⟩, Eq.refl _⟩
    · simp [updateTransactionsWhere]
    · dsimp only
      split
      · rfl
      · rfl

theorem preserves_exchangeSgdToUsdc (env : Nat → Bool) (s : Sys) (pid : String) :
    Preserves s (exchangeSgdToUsdc env s pid).1 := by
  unfold exchangeSgdToUsdc
  by_cases h2 : env 2 = true
  · rw [if_pos h2]
    exact preserves_refl s
  · rw [if_neg h2]
    cases hfp : findPayment s.db pid with
    | none => exact preserves_refl s
    | some payment => exact preserves_addTx_only s _ _

theorem preserves_exchangeUsdcToUsd (env : Nat → Bool) (s : Sys) (pid : String) :
    Preserves s (exchangeUsdcToUsd env s pid).1 := by
  unfold exchangeUsdcToUsd
  by_cases h3 : env 3 = true
  · rw [if_pos h3]
    exact preserves_refl s
  · rw [if_neg h3]
    cases hfp : findPayment s.db pid with
    | none => exact preserves_refl s
    | some payment =>
        cases hhd : ((txsOf s.db pid).filter
            (fun t => t.type = TransactionType.EXCHANGE_SGD_TO_USDC)).head? with
        | none => exact preserves_refl s
        | some usdcTransaction =>
            simp only
            cases hup : updatePayment
                (addTransaction s.db
                  { id := "tx-" ++ toString s.now
                    paymentId := pid
                    type := TransactionType.EXCHANGE_USDC_TO_USD
                    status := TransactionStatus.CONFIRMED
                    amount := usdcTransaction.amount * getExchangeRate "USDC" "USD"
                    currency := "USD"
                    circleTransactionId := some ("exchange-usdc-usd-" ++ toString s.now)
                    fees := some (usdcTransaction.amount * getExchangeRate "USDC" "USD" * (1 / 1000))
                    feeCurrency := some "USD"
                    createdAt := s.now }) pid
                (fun p => { p with
                  amountUsd := some (usdcTransaction.amount * getExchangeRate "USDC" "USD") }) with
            | error e =>
                simp only [hup]
                exact preserves_addTx_only s
                  { id := "tx-" ++ toString s.now
                    paymentId := pid
                    type := TransactionType.EXCHANGE_USDC_TO_USD
                    status := TransactionStatus.CONFIRMED
                    amount := usdcTransaction.amount * getExchangeRate "USDC" "USD"
                    currency := "USD"
                    circleTransactionId := some ("exchange-usdc-usd-" ++ toString s.now)
                    fees := some (usdcTransaction.amount * getExchangeRate "USDC" "USD" * (1 / 1000))
                    feeCurrency := some "USD"
                    createdAt := s.now } (s.now + 1)
            | ok db2 =>
                simp only [hup]
                refine preserves_trans (preserves_addTx_only s
                  { id := "tx-" ++ toString s.now
                    paymentId := pid
                    type := TransactionType.EXCHANGE_USDC_TO_USD
                    status := TransactionStatus.CONFIRMED
                    amount := usdcTransaction.amount * getExchangeRate "USDC" "USD"
                    currency := "USD"
                    circleTransactionId := some ("exchange-usdc-usd-" ++ toString s.now)
                    fees := some (usdcTransaction.amount * getExchangeRate "USDC" "USD" * (1 / 1000))
                    feeCurrency := some "USD"
                    createdAt := s.now } (s.now + 1)) ?_
                exact preserves_mapPayments _ db2 pid
                  (fun p => { p with
                    amountUsd := some (usdcTransaction.amount * getExchangeRate "USDC" "USD") })
                  (fun p => ⟨rfl, rfl⟩) hup (s.now + 1)

theorem preserves_payoutToVendor (env : Nat → Bool) (s : Sys) (pid : String) :
    Preserves s (payoutToVendor env s pid).1 := by
  unfold payoutToVendor
  by_cases h4 : env 4 = true
  · rw [if_pos h4]
    exact preserves_refl s
  · rw [if_neg h4]
    cases hfp : findPayment s.db pid with
    | none => exact preserves_refl s
    | some payment =>
        dsimp only
        cases hv : s.db.vendors.find? (fun v => v.id = payment.vendorId) with
        | none => exact preserves_refl s
        | some vendor =>
            dsimp only
            cases hb : vendor.bankAccount with
            | none => exact preserves_refl s
            | some ba =>
                dsimp only
                cases hhd : ((txsOf s.db pid).filter
                    (fun t => t.type = TransactionType.EXCHANGE_USDC_TO_USD)).head? with
                | none => exact preserves_refl s
                | some usdTransaction =>
                    simp only
                    cases hup : updatePayment
                        (addTransaction s.db
                          { id := "tx-" ++ toString s.now
                            paymentId := pid
                            type := TransactionType.PAYOUT
                            status := TransactionStatus.CONFIRMED
                            amount := usdTransaction.amount
                            currency := "USD"
                            circleTransactionId := some ("payout-" ++ toString s.now)
                            fees := some (usdTransaction.amount * (2 / 1000))
                            feeCurrency := some "USD"
                            createdAt := s.now }) pid
                        (fun p => { p with actualSettlementTime := some s.now }) with
                    | error e =>
                        simp only [hup]
                        exact preserves_addTx_only s
                          { id := "tx-" ++ toString s.now
                            paymentId := pid
                            type := TransactionType.PAYOUT
                            status := TransactionStatus.CONFIRMED
                            amount := usdTransaction.amount
                            currency := "USD"
                            circleTransactionId := some ("payout-" ++ toString s.now)
                            fees := some (usdTransaction.amount * (2 / 1000))
                            feeCurrency := some "USD"
                            createdAt := s.now } (s.now + 1)
                    | ok db2 =>
                        simp only [hup]
                        refine preserves_trans (preserves_addTx_only s
                          { id := "tx-" ++ toString s.now
                            paymentId := pid
                            type := TransactionType.PAYOUT
                            status := TransactionStatus.CONFIRMED
                            amount := usdTransaction.amount
                            currency := "USD"
                            circleTransactionId := some ("payout-" ++ toString s.now)
                            fees := some (usdTransaction.amount * (2 / 1000))
                            feeCurrency := some "USD"
                            createdAt := s.now } (s.now + 1)) ?_
                        exact preserves_mapPayments _ db2 pid
                          (fun p => { p with actualSettlementTime := some s.now })
                          (fun p => ⟨rfl, rfl⟩) hup (s.now + 1)

theorem preserves_pipelineSteps (env : Nat → Bool) (s : Sys) (pid : String) :
    Preserves s (pipelineSteps env s pid).1 := by
  unfold pipelineSteps
  cases h1 : updatePaymentStatusE s pid PaymentStatus.PROCESSING with
  | error e => exact preserves_refl s
  | ok s1 =>
      have p1 : Preserves s s1 := preserves_updatePaymentStatusE h1
      dsimp only
      cases h2 : createCirclePaymentIntent env s1 pid with
      | mk s2 r2 =>
          have q2 := preserves_createCirclePaymentIntent env s1 pid
          rw [h2] at q2
          have p2 : Preserves s s2 := preserves_trans p1 q2
          cases r2 with
          | error e => exact p2
          | ok piId =>
              dsimp only
              cases h3 : simulatePaymentConfirmation env s2 pid piId with
              | mk s3 r3 =>
                  have q3 := preserves_simulatePaymentConfirmation env s2 pid piId
                  rw [h3] at q3
                  have p3 : Preserves s s3 := preserves_trans p2 q3
                  cases r3 with
                  | error e => exact p3
                  | ok u3 =>
                      dsimp only
                      cases h4 : exchangeSgdToUsdc env s3 pid with
                      | mk s4 r4 =>
                          have q4 := preserves_exchangeSgdToUsdc env s3 pid
                          rw [h4] at q4
                          have p4 : Preserves s s4 := preserves_trans p3 q4
                          cases r4 with
                          | error e => exact p4
                          | ok u4 =>
                              dsimp only
                              cases h5 : exchangeUsdcToUsd env s4 pid with
                              | mk s5 r5 =>
                                  have q5 := preserves_exchangeUsdcToUsd env s4 pid
                                  rw [h5] at q5
                                  have p5 : Preserves s s5 := preserves_trans p4 q5
                                  cases r5 with
                                  | error e => exact p5
                                  | ok u5 =>
                                      dsimp only
                                      cases h6 : payoutToVendor env s5 pid with
                                      | mk s6 r6 =>
                                          have q6 := preserves_payoutToVendor env s5 pid
                                          rw [h6] at q6
                                          have p6 : Preserves s s6 := preserves_trans p5 q6
                                          cases r6 with
                                          | error e => exact p6
                                          | ok u6 =>
                                              dsimp only
                                              cases h7 : updatePaymentStatusE s6 pid
                                                  PaymentStatus.COMPLETED with
                                              | error e => exact p6
                                              | ok s7 =>
                                                  exact preserves_trans p6
                                                    (preserves_updatePaymentStatusE h7)

theorem preserves_processPaymentFlow (env : Nat → Bool) (s : Sys) (pid : String) :
    Preserves s (processPaymentFlow env s pid).1 := by
  unfold processPaymentFlow
  cases h : pipelineSteps env s pid with
  | mk s1 r1 =>
      have q1 := preserves_pipelineSteps env s pid
      rw [h] at q1
      have p1 : Preserves s s1 := q1
      cases r1 with
      | ok u => exact p1
      | error e =>
          dsimp only
          cases h2 : updatePaymentStatusE s1 pid PaymentStatus.FAILED with
          | ok s2 => exact preserves_trans p1 (preserves_updatePaymentStatusE h2)
          | error e2 => exact p1

theorem preserves_runPipelineCaught (env : Nat → Bool) (s : Sys) (pid : String) :
    Preserves s (runPipelineCaught env s pid) := by
  unfold runPipelineCaught
  cases h : processPaymentFlow env s pid with
  | mk s1 r1 =>
      have q1 := preserves_processPaymentFlow env s pid
      rw [h] at q1
      have p1 : Preserves s s1 := q1
      cases r1 with
      | ok u => exact p1
      | error e =>
          dsimp only
          cases h2 : updatePaymentStatusE s1 pid PaymentStatus.FAILED with
          | ok s2 => exact preserves_trans p1 (preserves_updatePaymentStatusE h2)
          | error e2 => exact p1

/-- Through any `Preserves` evolution, a payment found by idempotency
key is still found, with the same row id and key. -/
theorem findPaymentByKey_preserves {s s' : Sys} (h : Preserves s s')
    {k : String} {p : Payment} (hf : findPaymentByKey s.db k = some p) :
    ∃ p', findPaymentByKey s'.db k = some p' ∧ p'.id = p.id ∧
      p'.idempotencyKey = p.idempotencyKey := by
  obtain ⟨⟨g, hQ, hg⟩, _, _⟩ := h
  unfold findPaymentByKey at hf ⊢
  rw [hQ, find?_map_invariant _ g (fun a => by simp [(hg a).2]), hf]
  exact ⟨g p, rfl, (hg p).1, (hg p).2⟩

/-- Through any `Preserves` evolution, a payment found by id is still
found (its row is rewritten in place, never deleted). -/
theorem findPayment_preserves {s s' : Sys} (h : Preserves s s')
    {pid : String} {p : Payment} (hf : findPayment s.db pid = some p) :
    ∃ p', findPayment s'.db pid = some p' ∧ p'.id = p.id := by
  obtain ⟨⟨g, hQ, hg⟩, _, _⟩ := h
  unfold findPayment at hf ⊢
  rw [hQ, find?_map_invariant _ g (fun a => by simp [(hg a).1]), hf]
  exact ⟨g p, rfl, (hg p).1⟩

/-- Through any `Preserves` evolution, the transaction id column only
grows at the end: nothing is deleted. -/
theorem txIds_preserves {s s' : Sys} (h : Preserves s s') :
    ∃ l, s'.db.transactions.map Transaction.id =
      s.db.transactions.map Transaction.id ++ l := by
  obtain ⟨_, ⟨g, l, hU, hg⟩, _⟩ := h
  refine ⟨l.map Transaction.id, ?_⟩
  rw [hU, List.map_append, List.map_map]
  have : s.db.transactions.map (Transaction.id ∘ g) =
      s.db.transactions.map Transaction.id := by
    apply List.map_congr_left
    intro t _
    exact hg t
  rw [this]

theorem findPayment_id {db : DB} {pid : String} {p : Payment}
    (h : findPayment db pid = some p) : p.id = pid := by
  unfold findPayment at h
  have h2 := List.find?_some h
  simpa using h2

theorem updatePayment_ok {db : DB} {pid : String} {p : Payment}
    (f : Payment → Payment) (h : findPayment db pid = some p) :
    updatePayment db pid f =
      .ok { db with
            payments := db.payments.map (fun q => if q.id = pid then f q else q) } := by
  unfold findPayment at h
  unfold updatePayment
  rw [h]

theorem findPayment_map_upd {db : DB} {pid : String} {p : Payment}
    (f : Payment → Payment) (hf : ∀ q, (f q).id = q.id)
    (h : findPayment db pid = some p) :
    findPayment
      { db with payments := db.payments.map (fun q => if q.id = pid then f q else q) }
      pid = some (f p) := by
  unfold findPayment at h ⊢
  dsimp only
  revert p
  induction db.payments with
  | nil => intro p h; cases h
  | cons a l ih =>
      intro p h
      rw [List.find?_cons] at h
      by_cases ha : a.id = pid
      · simp only [ha, decide_eq_true_eq] at h
        simp only [decide_True, cond_true] at h
        cases h
        simp [List.find?_cons, ha, hf a]
      · have hna : decide (a.id = pid) = false := by simp [ha]
        simp only [hna, cond_false] at h
        simp only [List.map_cons, List.find?_cons, if_neg ha, hna, cond_false]
        exact ih h

/-! ## Shape of a fault-free pipeline run

Starting from a store holding the payment (with no transactions yet, as
`initiatePayment` leaves it), an ACTIVE-path vendor with a bank account
and no injected faults, the pipeline runs to COMPLETED and the final
store is computed in closed form: the four transaction rows below are
appended in order and the payment row receives its final fields. -/

/-- The `PAYMENT_IN` row as it stands after the confirmation step of a
fault-free run that started at clock `n` with source amount `amt`. -/
def txPaymentInDone (pid : String) (amt : ℚ) (n : Nat) : Transaction :=
  { id := "tx-" ++ toString n
    paymentId := pid
    type := TransactionType.PAYMENT_IN
    status := TransactionStatus.CONFIRMED
    amount := amt
    currency := "SGD"
    circleTransactionId := some ("pi-" ++ toString n)
    blockchainTxHash := some ("0x" ++ toString (n + 1))
    createdAt := n }

/-- The `EXCHANGE_SGD_TO_USDC` row of a fault-free run. -/
def txExchange1 (pid : String) (amt : ℚ) (n : Nat) : Transaction :=
  { id := "tx-" ++ toString (n + 1)
    paymentId := pid
    type := TransactionType.EXCHANGE_SGD_TO_USDC
    status := TransactionStatus.CONFIRMED
    amount := amt * getExchangeRate "SGD" "USDC"
    currency := "USDC"
    circleTransactionId := some ("exchange-sgd-usdc-" ++ toString (n + 1))
    fees := some (amt * getExchangeRate "SGD" "USDC" * (1 / 1000))
    feeCurrency := some "USDC"
    createdAt := n + 1 }

/-- The `EXCHANGE_USDC_TO_USD` row of a fault-free run. -/
def txExchange2 (pid : String) (amt : ℚ) (n : Nat) : Transaction :=
  { id := "tx-" ++ toString (n + 1 + 1)
    paymentId := pid
    type := TransactionType.EXCHANGE_USDC_TO_USD
    status := TransactionStatus.CONFIRMED
    amount := amt * getExchangeRate "SGD" "USDC" * getExchangeRate "USDC" "USD"
    currency := "USD"
    circleTransactionId := some ("exchange-usdc-usd-" ++ toString (n + 1 + 1))
    fees := some (amt * getExchangeRate "SGD" "USDC" * getExchangeRate "USDC" "USD" * (1 / 1000))
    feeCurrency := some "USD"
    createdAt := n + 1 + 1 }

/-- The `PAYOUT` row of a fault-free run. -/
def txPayout (pid : String) (amt : ℚ) (n : Nat) : Transaction :=
  { id := "tx-" ++ toString (n + 1 + 1 + 1)
    paymentId := pid
    type := TransactionType.PAYOUT
    status := TransactionStatus.CONFIRMED
    amount := amt * getExchangeRate "SGD" "USDC" * getExchangeRate "USDC" "USD"
    currency := "USD"
    circleTransactionId := some ("payout-" ++ toString (n + 1 + 1 + 1))
    fees := some (amt * getExchangeRate "SGD" "USDC" * getExchangeRate "USDC" "USD" * (2 / 1000))
    feeCurrency := some "USD"
    createdAt := n + 1 + 1 + 1 }

/-- The payment row after a fault-free run that started at clock `n`
with source amount `amt` (the amount read from the payment row the
pipeline found first). -/
def donePayment (p : Payment) (amt : ℚ) (n : Nat) : Payment :=
  { p with
    status := PaymentStatus.COMPLETED
    circlePaymentId := some ("pi-" ++ toString n)
    amountUsd := some (amt * getExchangeRate "SGD" "USDC" * getExchangeRate "USDC" "USD")
    actualSettlementTime := some (n + 1 + 1 + 1) }

theorem find?_payments_upd {P : List Payment} {pid : String} {p : Payment}
    (f : Payment → Payment) (hf : ∀ q, (f q).id = q.id)
    (h : P.find? (fun q => q.id = pid) = some p) :
    (P.map (fun q => if q.id = pid then f q else q)).find? (fun q => q.id = pid) =
      some (f p) := by
  revert p
  induction P with
  | nil => intro p h; cases h
  | cons a l ih =>
      intro p h
      rw [List.find?_cons] at h
      by_cases ha : a.id = pid
      · simp only [ha, decide_eq_true_eq] at h
        simp only [decide_True, cond_true] at h
        cases h
        simp [List.find?_cons, ha, hf a]
      · have hna : decide (a.id = pid) = false := by simp [ha]
        simp only [hna, cond_false] at h
        simp only [List.map_cons, List.find?_cons, if_neg ha, hna, cond_false]
        exact ih h

theorem map5_done (P : List Payment) (pid : String) (amt : ℚ) (n : Nat) :
    List.map (fun q => if q.id = pid then { q with status := PaymentStatus.COMPLETED } else q)
      (List.map (fun q => if q.id = pid then
          { q with actualSettlementTime := some (n + 1 + 1 + 1) } else q)
      (List.map (fun q => if q.id = pid then
          { q with amountUsd := some (amt * getExchangeRate "SGD" "USDC" *
              getExchangeRate "USDC" "USD") } else q)
      (List.map (fun q => if q.id = pid then
          { q with circlePaymentId := some ("pi-" ++ toString n) } else q)
      (List.map (fun q => if q.id = pid then
          { q with status := PaymentStatus.PROCESSING } else q) P)))) =
    List.map (fun q => if q.id = pid then donePayment q amt n else q) P := by
  simp only [List.map_map]
  apply List.map_congr_left
  intro q hq
  simp only [Function.comp_apply]
  by_cases h : q.id = pid
  · simp [donePayment, h]
  · simp [donePayment, h]

theorem pipeline_success (env : Nat → Bool) (henv : ∀ i, env i = false)
    (s : Sys) (pid : String) (p : Payment) (ven : Vendor)
    (Hp : findPayment s.db pid = some p)
    (Ht : txsOf s.db pid = [])
    (Hv : s.db.vendors.find? (fun v => v.id = p.vendorId) = some ven)
    (Hb : ven.bankAccount ≠ none) :
    pipelineSteps env s pid =
      ({ db := { s.db with
            payments := s.db.payments.map
              (fun q => if q.id = pid then donePayment q p.amountSgd s.now else q)
            transactions := s.db.transactions ++
              [txPaymentInDone pid p.amountSgd s.now,
               txExchange1 pid p.amountSgd s.now,
               txExchange2 pid p.amountSgd s.now,
               txPayout pid p.amountSgd s.now] }
         now := s.now + 1 + 1 + 1 + 1 }, .ok ()) := by
  have he0 : ¬ env 0 = true := by simp [henv 0]
  have he1 : ¬ env 1 = true := by simp [henv 1]
  have he2 : ¬ env 2 = true := by simp [henv 2]
  have he3 : ¬ env 3 = true := by simp [henv 3]
  have he4 : ¬ env 4 = true := by simp [henv 4]
  have hpid : p.id = pid := findPayment_id Hp
  obtain ⟨ba, hba⟩ : ∃ b, ven.bankAccount = some b := by
    cases hv2 : ven.bankAccount with
    | none => exact absurd hv2 Hb
    | some b => exact ⟨b, rfl⟩
  have hfilT : List.filter (fun t => decide (t.paymentId = pid)) s.db.transactions = [] := Ht
  have hTneg : ∀ t ∈ s.db.transactions, ¬ t.paymentId = pid := by
    simpa [txsOf, List.filter_eq_nil_iff] using Ht
  have hfindP : List.find? (fun q => decide (q.id = pid)) s.db.payments = some p := Hp
  have hfind1 : List.find? (fun q => decide (q.id = pid))
      (List.map (fun q => if q.id = pid then { q with status := PaymentStatus.PROCESSING } else q)
        s.db.payments) =
      some { p with status := PaymentStatus.PROCESSING } :=
    find?_payments_upd _ (fun q => rfl) hfindP
  have hfind2 : List.find? (fun q => decide (q.id = pid))
      (List.map (fun q => if q.id = pid then
          { q with circlePaymentId := some ("pi-" ++ toString s.now) } else q)
        (List.map (fun q => if q.id = pid then
          { q with status := PaymentStatus.PROCESSING } else q) s.db.payments)) =
      some { p with
        status := PaymentStatus.PROCESSING
        circlePaymentId := some ("pi-" ++ toString s.now) } :=
    find?_payments_upd
      (fun q => { q with circlePaymentId := some ("pi-" ++ toString s.now) })
      (fun q => rfl) hfind1
  have hfind3 : List.find? (fun q => decide (q.id = pid))
      (List.map (fun q => if q.id = pid then
          { q with amountUsd := some (p.amountSgd * getExchangeRate "SGD" "USDC" *
              getExchangeRate "USDC" "USD") } else q)
        (List.map (fun q => if q.id = pid then
          { q with circlePaymentId := some ("pi-" ++ toString s.now) } else q)
        (List.map (fun q => if q.id = pid then
          { q with status := PaymentStatus.PROCESSING } else q) s.db.payments))) =
      some { p with
        status := PaymentStatus.PROCESSING
        circlePaymentId := some ("pi-" ++ toString s.now)
        amountUsd := some (p.amountSgd * getExchangeRate "SGD" "USDC" *
          getExchangeRate "USDC" "USD") } :=
    find?_payments_upd
      (fun q => { q with amountUsd := some (p.amountSgd * getExchangeRate "SGD" "USDC" *
        getExchangeRate "USDC" "USD") })
      (fun q => rfl) hfind2
  have hfind4 : List.find? (fun q => decide (q.id = pid))
      (List.map (fun q => if q.id = pid then
          { q with actualSettlementTime := some (s.now + 1 + 1 + 1) } else q)
        (List.map (fun q => if q.id = pid then
          { q with amountUsd := some (p.amountSgd * getExchangeRate "SGD" "USDC" *
              getExchangeRate "USDC" "USD") } else q)
        (List.map (fun q => if q.id = pid then
          { q with circlePaymentId := some ("pi-" ++ toString s.now) } else q)
        (List.map (fun q => if q.id = pid then
          { q with status := PaymentStatus.PROCESSING } else q) s.db.payments)))) =
      some { p with
        status := PaymentStatus.PROCESSING
        circlePaymentId := some ("pi-" ++ toString s.now)
        amountUsd := some (p.amountSgd * getExchangeRate "SGD" "USDC" *
          getExchangeRate "USDC" "USD")
        actualSettlementTime := some (s.now + 1 + 1 + 1) } :=
    find?_payments_upd
      (fun q => { q with actualSettlementTime := some (s.now + 1 + 1 + 1) })
      (fun q => rfl) hfind3
  have hconf : updateTransactionsWhere
      { s.db with
        payments := List.map (fun q => if q.id = pid then
            { q with circlePaymentId := some ("pi-" ++ toString s.now) } else q)
          (List.map (fun q => if q.id = pid then
            { q with status := PaymentStatus.PROCESSING } else q) s.db.payments)
        transactions := s.db.transactions ++
          [{ id := "tx-" ++ toString s.now
             paymentId := pid
             type := TransactionType.PAYMENT_IN
             status := TransactionStatus.PENDING
             amount := p.amountSgd
             currency := "SGD"
             circleTransactionId := some ("pi-" ++ toString s.now)
             createdAt := s.now }] }
      (fun t =>
        t.paymentId = pid ∧ t.type = TransactionType.PAYMENT_IN ∧
          t.circleTransactionId = some ("pi-" ++ toString s.now))
      (fun t =>
        { t with
          status := TransactionStatus.CONFIRMED
          blockchainTxHash := some ("0x" ++ toString (s.now + 1)) }) =
      { s.db with
        payments := List.map (fun q => if q.id = pid then
            { q with circlePaymentId := some ("pi-" ++ toString s.now) } else q)
          (List.map (fun q => if q.id = pid then
            { q with status := PaymentStatus.PROCESSING } else q) s.db.payments)
        transactions := s.db.transactions ++
          [{ id := "tx-" ++ toString s.now
             paymentId := pid
             type := TransactionType.PAYMENT_IN
             status := TransactionStatus.CONFIRMED
             amount := p.amountSgd
             currency := "SGD"
             circleTransactionId := some ("pi-" ++ toString s.now)
             blockchainTxHash := some ("0x" ++ toString (s.now + 1))
             createdAt := s.now }] } := by
    unfold updateTransactionsWhere
    have hmap : List.map
        (fun t => if (t.paymentId = pid ∧ t.type = TransactionType.PAYMENT_IN ∧
            t.circleTransactionId = some ("pi-" ++ toString s.now) : Bool) then
            { t with
              status := TransactionStatus.CONFIRMED
              blockchainTxHash := some ("0x" ++ toString (s.now + 1)) }
          else t)
        (s.db.transactions ++
          [{ id := "tx-" ++ toString s.now
             paymentId := pid
             type := TransactionType.PAYMENT_IN
             status := TransactionStatus.PENDING
             amount := p.amountSgd
             currency := "SGD"
             circleTransactionId := some ("pi-" ++ toString s.now)
             createdAt := s.now }]) =
        s.db.transactions ++
          [{ id := "tx-" ++ toString s.now
             paymentId := pid
             type := TransactionType.PAYMENT_IN
             status := TransactionStatus.CONFIRMED
             amount := p.amountSgd
             currency := "SGD"
             circleTransactionId := some ("pi-" ++ toString s.now)
             blockchainTxHash := some ("0x" ++ toString (s.now + 1))
             createdAt := s.now }] := by
      rw [List.map_append]
      rw [map_if_of_all_neg _ _ _ (fun t ht => by simp [hTneg t ht])]
      simp
    rw [hmap]
  have hfilA : List.filter (fun t => decide (t.paymentId = pid))
      ((s.db.transactions ++
        [{ id := "tx-" ++ toString s.now
           paymentId := pid
           type := TransactionType.PAYMENT_IN
           status := TransactionStatus.CONFIRMED
           amount := p.amountSgd
           currency := "SGD"
           circleTransactionId := some ("pi-" ++ toString s.now)
           blockchainTxHash := some ("0x" ++ toString (s.now + 1))
           createdAt := s.now }]) ++
        [{ id := "tx-" ++ toString (s.now + 1)
           paymentId := pid
           type := TransactionType.EXCHANGE_SGD_TO_USDC
           status := TransactionStatus.CONFIRMED
           amount := p.amountSgd * getExchangeRate "SGD" "USDC"
           currency := "USDC"
           circleTransactionId := some ("exchange-sgd-usdc-" ++ toString (s.now + 1))
           fees := some (p.amountSgd * getExchangeRate "SGD" "USDC" * (1 / 1000))
           feeCurrency := some "USDC"
           createdAt := s.now + 1 }]) =
      [{ id := "tx-" ++ toString s.now
         paymentId := pid
         type := TransactionType.PAYMENT_IN
         status := TransactionStatus.CONFIRMED
         amount := p.amountSgd
         currency := "SGD"
         circleTransactionId := some ("pi-" ++ toString s.now)
         blockchainTxHash := some ("0x" ++ toString (s.now + 1))
         createdAt := s.now },
       { id := "tx-" ++ toString (s.now + 1)
         paymentId := pid
         type := TransactionType.EXCHANGE_SGD_TO_USDC
         status := TransactionStatus.CONFIRMED
         amount := p.amountSgd * getExchangeRate "SGD" "USDC"
         currency := "USDC"
         circleTransactionId := some ("exchange-sgd-usdc-" ++ toString (s.now + 1))
         fees := some (p.amountSgd * getExchangeRate "SGD" "USDC" * (1 / 1000))
         feeCurrency := some "USDC"
         createdAt := s.now + 1 }] := by
    rw [List.filter_append, List.filter_append, hfilT]
    simp
  have hhd1 : (List.filter (fun t : Transaction => decide (t.type = TransactionType.EXCHANGE_SGD_TO_USDC))
      [{ id := "tx-" ++ toString s.now
         paymentId := pid
         type := TransactionType.PAYMENT_IN
         status := TransactionStatus.CONFIRMED
         amount := p.amountSgd
         currency := "SGD"
         circleTransactionId := some ("pi-" ++ toString s.now)
         blockchainTxHash := some ("0x" ++ toString (s.now + 1))
         createdAt := s.now },
       { id := "tx-" ++ toString (s.now + 1)
         paymentId := pid
         type := TransactionType.EXCHANGE_SGD_TO_USDC
         status := TransactionStatus.CONFIRMED
         amount := p.amountSgd * getExchangeRate "SGD" "USDC"
         currency := "USDC"
         circleTransactionId := some ("exchange-sgd-usdc-" ++ toString (s.now + 1))
         fees := some (p.amountSgd * getExchangeRate "SGD" "USDC" * (1 / 1000))
         feeCurrency := some "USDC"
         createdAt := s.now + 1 }]).head? =
      some
        ({ id := "tx-" ++ toString (s.now + 1)
           paymentId := pid
           type := TransactionType.EXCHANGE_SGD_TO_USDC
           status := TransactionStatus.CONFIRMED
           amount := p.amountSgd * getExchangeRate "SGD" "USDC"
           currency := "USDC"
           circleTransactionId := some ("exchange-sgd-usdc-" ++ toString (s.now + 1))
           fees := some (p.amountSgd * getExchangeRate "SGD" "USDC" * (1 / 1000))
           feeCurrency := some "USDC"
           createdAt := s.now + 1 }) := rfl
  have hfilB : List.filter (fun t : Transaction => decide (t.paymentId = pid))
      (((s.db.transactions ++
        [{ id := "tx-" ++ toString s.now
           paymentId := pid
           type := TransactionType.PAYMENT_IN
           status := TransactionStatus.CONFIRMED
           amount := p.amountSgd
           currency := "SGD"
           circleTransactionId := some ("pi-" ++ toString s.now)
           blockchainTxHash := some ("0x" ++ toString (s.now + 1))
           createdAt := s.now }]) ++
        [{ id := "tx-" ++ toString (s.now + 1)
           paymentId := pid
           type := TransactionType.EXCHANGE_SGD_TO_USDC
           status := TransactionStatus.CONFIRMED
           amount := p.amountSgd * getExchangeRate "SGD" "USDC"
           currency := "USDC"
           circleTransactionId := some ("exchange-sgd-usdc-" ++ toString (s.now + 1))
           fees := some (p.amountSgd * getExchangeRate "SGD" "USDC" * (1 / 1000))
           feeCurrency := some "USDC"
           createdAt := s.now + 1 }]) ++
        [{ id := "tx-" ++ toString (s.now + 1 + 1)
           paymentId := pid
           type := TransactionType.EXCHANGE_USDC_TO_USD
           status := TransactionStatus.CONFIRMED
           amount := p.amountSgd * getExchangeRate "SGD" "USDC" * getExchangeRate "USDC" "USD"
           currency := "USD"
           circleTransactionId := some ("exchange-usdc-usd-" ++ toString (s.now + 1 + 1))
           fees := some (p.amountSgd * getExchangeRate "SGD" "USDC" * getExchangeRate "USDC" "USD" * (1 / 1000))
           feeCurrency := some "USD"
           createdAt := s.now + 1 + 1 }]) =
      [{ id := "tx-" ++ toString s.now
         paymentId := pid
         type := TransactionType.PAYMENT_IN
         status := TransactionStatus.CONFIRMED
         amount := p.amountSgd
         currency := "SGD"
         circleTransactionId := some ("pi-" ++ toString s.now)
         blockchainTxHash := some ("0x" ++ toString (s.now + 1))
         createdAt := s.now },
       { id := "tx-" ++ toString (s.now + 1)
         paymentId := pid
         type := TransactionType.EXCHANGE_SGD_TO_USDC
         status := TransactionStatus.CONFIRMED
         amount := p.amountSgd * getExchangeRate "SGD" "USDC"
         currency := "USDC"
         circleTransactionId := some ("exchange-sgd-usdc-" ++ toString (s.now + 1))
         fees := some (p.amountSgd * getExchangeRate "SGD" "USDC" * (1 / 1000))
         feeCurrency := some "USDC"
         createdAt := s.now + 1 },
       { id := "tx-" ++ toString (s.now + 1 + 1)
         paymentId := pid
         type := TransactionType.EXCHANGE_USDC_TO_USD
         status := TransactionStatus.CONFIRMED
         amount := p.amountSgd * getExchangeRate "SGD" "USDC" * getExchangeRate "USDC" "USD"
         currency := "USD"
         circleTransactionId := some ("exchange-usdc-usd-" ++ toString (s.now + 1 + 1))
         fees := some (p.amountSgd * getExchangeRate "SGD" "USDC" * getExchangeRate "USDC" "USD" * (1 / 1000))
         feeCurrency := some "USD"
         createdAt := s.now + 1 + 1 }] := by
    rw [List.filter_append, List.filter_append, List.filter_append, hfilT]
    simp
  have hhd2 : (List.filter (fun t : Transaction => decide (t.type = TransactionType.EXCHANGE_USDC_TO_USD))
      [{ id := "tx-" ++ toString s.now
         paymentId := pid
         type := TransactionType.PAYMENT_IN
         status := TransactionStatus.CONFIRMED
         amount := p.amountSgd
         currency := "SGD"
         circleTransactionId := some ("pi-" ++ toString s.now)
         blockchainTxHash := some ("0x" ++ toString (s.now + 1))
         createdAt := s.now },
       { id := "tx-" ++ toString (s.now + 1)
         paymentId := pid
         type := TransactionType.EXCHANGE_SGD_TO_USDC
         status := TransactionStatus.CONFIRMED
         amount := p.amountSgd * getExchangeRate "SGD" "USDC"
         currency := "USDC"
         circleTransactionId := some ("exchange-sgd-usdc-" ++ toString (s.now + 1))
         fees := some (p.amountSgd * getExchangeRate "SGD" "USDC" * (1 / 1000))
         feeCurrency := some "USDC"
         createdAt := s.now + 1 },
       { id := "tx-" ++ toString (s.now + 1 + 1)
         paymentId := pid
         type := TransactionType.EXCHANGE_USDC_TO_USD
         status := TransactionStatus.CONFIRMED
         amount := p.amountSgd * getExchangeRate "SGD" "USDC" * getExchangeRate "USDC" "USD"
         currency := "USD"
         circleTransactionId := some ("exchange-usdc-usd-" ++ toString (s.now + 1 + 1))
         fees := some (p.amountSgd * getExchangeRate "SGD" "USDC" * getExchangeRate "USDC" "USD" * (1 / 1000))
         feeCurrency := some "USD"
         createdAt := s.now + 1 + 1 }]).head? =
      some
        ({ id := "tx-" ++ toString (s.now + 1 + 1)
           paymentId := pid
           type := TransactionType.EXCHANGE_USDC_TO_USD
           status := TransactionStatus.CONFIRMED
           amount := p.amountSgd * getExchangeRate "SGD" "USDC" * getExchangeRate "USDC" "USD"
           currency := "USD"
           circleTransactionId := some ("exchange-usdc-usd-" ++ toString (s.now + 1 + 1))
           fees := some (p.amountSgd * getExchangeRate "SGD" "USDC" * getExchangeRate "USDC" "USD" * (1 / 1000))
           feeCurrency := some "USD"
           createdAt := s.now + 1 + 1 }) := rfl
  unfold pipelineSteps updatePaymentStatusE createCirclePaymentIntent
    simulatePaymentConfirmation exchangeSgdToUsdc exchangeUsdcToUsd payoutToVendor
    updatePayment findPayment txsOf addTransaction Except.map
  rw [hfindP]
  try dsimp only
  rw [if_neg he0]
  rw [hfind1]
  try dsimp only
  rw [if_neg he1]
  try dsimp only
  rw [hconf]
  try dsimp only
  rw [if_neg he2]
  rw [hfind2]
  try dsimp only
  rw [if_neg he3]
  rw [hfind2]
  try dsimp only
  rw [hfilA]
  try dsimp only
  rw [hhd1]
  try dsimp only
  rw [if_neg he4]
  rw [hfind3]
  try dsimp only
  rw [Hv]
  try dsimp only
  rw [hba]
  try dsimp only
  rw [hfilB]
  try dsimp only
  rw [hhd2]
  try dsimp only
  rw [hfind4]
  try dsimp only
  rw [map5_done]
  simp only [List.append_assoc]
  rfl

/-! ## Claim theorems -/

/-- C1: for every valid initiate request, a second `initiate` with the same
idempotency key returns the existing Payment verbatim (same id, status,
amounts, expected settlement time and key, as projected by
`responseOfPayment`) and leaves the whole store untouched — the second
call returns the state `s1` unchanged, so no new Payment row, no new rate
computation and no second Transaction set is produced, whatever the
asynchronous pipeline (any fault oracle `env`, `env2`) did in between. -/
theorem initiate_idempotent
    (env env2 : Nat → Bool) (sys : Sys) (request request2 : CreatePaymentRequest)
    (key : String) (hkey : key ≠ "")
    (s1 : Sys) (resp1 : CreatePaymentResponse)
    (h : initiateAndProcess env sys request (some key) = (s1, .ok resp1)) :
    ∃ p, findPaymentByKey s1.db key = some p ∧ p.id = resp1.paymentId ∧
      initiateAndProcess env2 s1 request2 (some key) = (s1, .ok (responseOfPayment p)) := by
  unfold initiateAndProcess initiatePaymentCore at h ⊢
  dsimp only at h ⊢
  rw [if_neg hkey] at h ⊢
  cases hfind : findPaymentByKey sys.db key with
  | some existing =>
      rw [hfind] at h
      dsimp only at h
      cases h
      refine ⟨existing, hfind, rfl, ?_⟩
      rw [hfind]
  | none =>
      rw [hfind] at h
      dsimp only at h
      cases hv : sys.db.vendors.find?
          (fun v => v.id = request.vendorId ∧ v.status = VendorStatus.ACTIVE) with
      | none => rw [hv] at h; cases h
      | some vendor =>
          rw [hv] at h
          dsimp only at h
          cases hb : vendor.bankAccount with
          | none => rw [hb] at h; cases h
          | some ba =>
              rw [hb] at h
              dsimp only at h
              injection h with h1 h2
              injection h2 with h2
              subst h1
              subst h2
              have hadd : findPaymentByKey
                  { sys.db with payments := sys.db.payments ++
                      [{ id := "pay-" ++ toString sys.now
                         idempotencyKey := key
                         vendorId := request.vendorId
                         amountSgd := request.amountSgd
                         amountUsd := some (request.amountSgd *
                           (getExchangeRate "SGD" "USDC" * getExchangeRate "USDC" "USD"))
                         exchangeRate := some (getExchangeRate "SGD" "USDC" *
                           getExchangeRate "USDC" "USD")
                         status := PaymentStatus.PENDING
                         customerReference := request.customerReference
                         description := request.description
                         expectedSettlementTime := some (sys.now + 30 * 60 * 1000) }] }
                  key = some
                  { id := "pay-" ++ toString sys.now
                    idempotencyKey := key
                    vendorId := request.vendorId
                    amountSgd := request.amountSgd
                    amountUsd := some (request.amountSgd *
                      (getExchangeRate "SGD" "USDC" * getExchangeRate "USDC" "USD"))
                    exchangeRate := some (getExchangeRate "SGD" "USDC" *
                      getExchangeRate "USDC" "USD")
                    status := PaymentStatus.PENDING
                    customerReference := request.customerReference
                    description := request.description
                    expectedSettlementTime := some (sys.now + 30 * 60 * 1000) } := by
                unfold findPaymentByKey
                dsimp only
                rw [find?_append_of_none _ _ _ hfind]
                simp
              obtain ⟨pFin, hpFin, hpFinId, hpFinKey⟩ :=
                findPaymentByKey_preserves
                  (preserves_runPipelineCaught env
                    { db := { sys.db with payments := sys.db.payments ++
                        [{ id := "pay-" ++ toString sys.now
                           idempotencyKey := key
                           vendorId := request.vendorId
                           amountSgd := request.amountSgd
                           amountUsd := some (request.amountSgd *
                             (getExchangeRate "SGD" "USDC" * getExchangeRate "USDC" "USD"))
                           exchangeRate := some (getExchangeRate "SGD" "USDC" *
                             getExchangeRate "USDC" "USD")
                           status := PaymentStatus.PENDING
                           customerReference := request.customerReference
                           description := request.description
                           expectedSettlementTime := some (sys.now + 30 * 60 * 1000) }] }
                      now := sys.now + 1 }
                    ("pay-" ++ toString sys.now)) hadd
              refine ⟨pFin, hpFin, hpFinId, ?_⟩
              rw [hpFin]

/-! ### Concrete fixtures for witnesses and counterexamples -/

/-- The no-fault oracle: no external call throws. -/
def envOk : Nat → Bool := fun _ => false

/-- The always-failing oracle: the first provider call throws. -/
def envBad : Nat → Bool := fun _ => true

/-- An ACTIVE vendor with a configured bank account. -/
def venW : Vendor :=
  { id := "v1", status := VendorStatus.ACTIVE, bankAccount := some {} }

/-- A store holding just that vendor. -/
def sysW : Sys := { db := { vendors := [venW] }, now := 0 }

/-- A simple initiation request against `venW`. -/
def reqW : CreatePaymentRequest := { vendorId := "v1", amountSgd := 1000 }

/-- The payment row `initiatePayment` creates from `reqW` on `sysW`. -/
def pW : Payment :=
  { id := "pay-0"
    idempotencyKey := "k"
    vendorId := "v1"
    amountSgd := 1000
    amountUsd := some (1000 * (getExchangeRate "SGD" "USDC" * getExchangeRate "USDC" "USD"))
    exchangeRate := some (getExchangeRate "SGD" "USDC" * getExchangeRate "USDC" "USD")
    status := PaymentStatus.PENDING
    expectedSettlementTime := some (0 + 30 * 60 * 1000) }

/-- Witness for C1: on the concrete store `sysW`, a first initiate with
key "k" creates `pW`; the second initiate returns it verbatim and leaves
the state unchanged. -/
theorem initiate_idempotent_witness :
    ∃ p, findPaymentByKey (initiateAndProcess envOk sysW reqW (some "k")).1.db "k" = some p ∧
      p.id = (responseOfPayment pW).paymentId ∧
      initiateAndProcess envOk (initiateAndProcess envOk sysW reqW (some "k")).1 reqW (some "k") =
        ((initiateAndProcess envOk sysW reqW (some "k")).1, .ok (responseOfPayment p)) :=
  initiate_idempotent envOk envOk sysW reqW reqW "k" (by decide)
    (initiateAndProcess envOk sysW reqW (some "k")).1 (responseOfPayment pW)
    (by
      have h2 : (initiateAndProcess envOk sysW reqW (some "k")).2 =
          Except.ok (responseOfPayment pW) := rfl
      rw [← h2])

/-- C7: an initiate request (fresh idempotency key) naming a vendor that
is not found ACTIVE, or an ACTIVE vendor without a bank account, fails
synchronously with the vendor-unavailable error and the store is
returned unchanged — no Payment row is created. -/
theorem initiate_vendor_unavailable (sys : Sys) (request : CreatePaymentRequest)
    (key : String) (hkey : key ≠ "")
    (hfresh : findPaymentByKey sys.db key = none) :
    (sys.db.vendors.find?
        (fun v => v.id = request.vendorId ∧ v.status = VendorStatus.ACTIVE) = none →
      initiatePayment sys request (some key) =
        (sys, .error "Payment initiation failed: Vendor not found or inactive")) ∧
    (∀ vendor, sys.db.vendors.find?
        (fun v => v.id = request.vendorId ∧ v.status = VendorStatus.ACTIVE) = some vendor →
      vendor.bankAccount = none →
      initiatePayment sys request (some key) =
        (sys, .error "Payment initiation failed: Vendor bank account not configured")) := by
  constructor
  · intro hv
    unfold initiatePayment initiatePaymentCore
    dsimp only
    rw [if_neg hkey, hfresh]
    dsimp only
    rw [hv]
  · intro vendor hv hb
    unfold initiatePayment initiatePaymentCore
    dsimp only
    rw [if_neg hkey, hfresh]
    dsimp only
    rw [hv]
    dsimp only
    rw [hb]

/-- An INACTIVE vendor (with a bank account). -/
def venI : Vendor :=
  { id := "v2", status := VendorStatus.INACTIVE, bankAccount := some {} }

/-- An ACTIVE vendor without a bank account. -/
def venNB : Vendor := { id := "v3", status := VendorStatus.ACTIVE }

/-- A store holding both degenerate vendors. -/
def sysI : Sys := { db := { vendors := [venI, venNB] }, now := 0 }

/-- Witness for C7 at the two concrete degenerate vendors. -/
theorem initiate_vendor_unavailable_witness :
    initiatePayment sysI { vendorId := "v2", amountSgd := 5 } (some "k") =
      (sysI, .error "Payment initiation failed: Vendor not found or inactive") ∧
    initiatePayment sysI { vendorId := "v3", amountSgd := 5 } (some "k") =
      (sysI, .error "Payment initiation failed: Vendor bank account not configured") :=
  ⟨(initiate_vendor_unavailable sysI { vendorId := "v2", amountSgd := 5 } "k"
      (by decide) rfl).1 rfl,
   (initiate_vendor_unavailable sysI { vendorId := "v3", amountSgd := 5 } "k"
      (by decide) rfl).2 venNB rfl rfl⟩

/-- C5: pipeline errors are contained.  For every fault oracle `env` and
every error raised at any pipeline step: (1) the payment transitions to
FAILED; (2) transaction rows already recorded are retained — the id
column of the transactions table after the run extends the one before
it, so nothing is rolled back or deleted; (3) the response returned to
the caller of `initiate` never depends on the pipeline outcome, so the
error is not propagated to the caller. -/
theorem pipeline_failure_contained :
    (∀ (env : Nat → Bool) (sys : Sys) (pid : String) (p : Payment) (e : String),
      findPayment sys.db pid = some p →
      (processPaymentFlow env sys pid).2 = .error e →
      ∃ p2, findPayment (processPaymentFlow env sys pid).1.db pid = some p2 ∧
        p2.status = PaymentStatus.FAILED) ∧
    (∀ (env : Nat → Bool) (sys : Sys) (pid : String),
      ∃ l, (processPaymentFlow env sys pid).1.db.transactions.map Transaction.id =
        sys.db.transactions.map Transaction.id ++ l) ∧
    (∀ (env : Nat → Bool) (sys : Sys) (request : CreatePaymentRequest)
        (key : Option String),
      (initiateAndProcess env sys request key).2 = (initiatePayment sys request key).2) := by
  refine ⟨?_, ?_, ?_⟩
  · intro env sys pid p e hp herr
    unfold processPaymentFlow at herr ⊢
    cases hps : pipelineSteps env sys pid with
    | mk s1 r =>
        cases r with
        | ok u =>
            rw [hps] at herr
            dsimp only at herr
            exact Except.noConfusion herr
        | error e0 =>
            dsimp only at herr ⊢
            have hpres := preserves_pipelineSteps env sys pid
            rw [hps] at hpres
            obtain ⟨p1, hp1, _⟩ := findPayment_preserves hpres hp
            have hupd : updatePaymentStatusE s1 pid PaymentStatus.FAILED =
                Except.ok
                  { s1 with db := { s1.db with
                      payments := s1.db.payments.map fun q =>
                        if q.id = pid then { q with status := PaymentStatus.FAILED }
                        else q } } := by
              unfold updatePaymentStatusE
              rw [updatePayment_ok _ hp1]
              rfl
            rw [hupd]
            dsimp only
            exact ⟨_, findPayment_map_upd _ (fun q => rfl) hp1, rfl⟩
  · intro env sys pid
    exact txIds_preserves (preserves_processPaymentFlow env sys pid)
  · intro env sys request key
    unfold initiateAndProcess initiatePayment
    cases hc : initiatePaymentCore sys request key with
    | mk s r =>
        cases r with
        | error e => rfl
        | ok ro =>
            cases ro with
            | mk resp o =>
                cases o with
                | none => rfl
                | some pid => rfl

/-- A PENDING payment row for `venW`. -/
def pP : Payment :=
  { id := "p1", idempotencyKey := "k1", vendorId := "v1", amountSgd := 10,
    status := PaymentStatus.PENDING }

/-- A store holding `venW` and the pending payment `pP`. -/
def sysP : Sys := { db := { vendors := [venW], payments := [pP] }, now := 5 }

/-- Witness for C5: with every provider call failing, the concrete
pipeline run errors at step one, the payment ends FAILED, the
transaction ids extend the initial ones, and the initiate response is
unchanged. -/
theorem pipeline_failure_contained_witness :
    (∃ p2, findPayment (processPaymentFlow envBad sysP "p1").1.db "p1" = some p2 ∧
      p2.status = PaymentStatus.FAILED) ∧
    (∃ l, (processPaymentFlow envBad sysP "p1").1.db.transactions.map Transaction.id =
      sysP.db.transactions.map Transaction.id ++ l) ∧
    (initiateAndProcess envBad sysP reqW (some "k2")).2 =
      (initiatePayment sysP reqW (some "k2")).2 :=
  ⟨pipeline_failure_contained.1 envBad sysP "p1" pP
      "Failed to create Circle payment intent: upstream error" rfl rfl,
   pipeline_failure_contained.2.1 envBad sysP "p1",
   pipeline_failure_contained.2.2 envBad sysP reqW (some "k2")⟩

/-- Every string accepted by the UUID-v4 validator is UUID-shaped
(five dash-separated hex groups of lengths 8-4-4-4-12). -/
theorem validateIdempotencyKey_implies_shaped (k : String)
    (h : validateIdempotencyKey k = true) : isUuidShaped k = true := by
  unfold validateIdempotencyKey at h
  unfold isUuidShaped
  cases h0 : splitDash k.data with
  | nil => rw [h0] at h; cases h
  | cons g1 r1 =>
      cases r1 with
      | nil => rw [h0] at h; cases h
      | cons g2 r2 =>
          cases r2 with
          | nil => rw [h0] at h; cases h
          | cons g3 r3 =>
              cases r3 with
              | nil => rw [h0] at h; cases h
              | cons g4 r4 =>
                  cases r4 with
                  | nil => rw [h0] at h; cases h
                  | cons g5 r5 =>
                      cases r5 with
                      | cons g6 r6 => rw [h0] at h; cases h
                      | nil =>
                          rw [h0] at h
                          dsimp only at h ⊢
                          simp only [Bool.and_eq_true, decide_eq_true_eq] at h ⊢
                          obtain ⟨⟨⟨⟨h1, h2⟩, h3⟩, h4⟩, h5⟩ := h
                          refine ⟨⟨⟨⟨h1, h2⟩, ?_⟩, ?_⟩, h5⟩
                          · cases g3 with
                            | nil => cases h3
                            | cons c rest =>
                                simp only [Bool.and_eq_true, decide_eq_true_eq] at h3
                                obtain ⟨⟨hc, hl⟩, hx⟩ := h3
                                subst hc
                                constructor
                                · simp [List.length_cons, hl]
                                · simp only [List.all_cons, Bool.and_eq_true]
                                  exact ⟨by decide, hx⟩
                          · cases g4 with
                            | nil => cases h4
                            | cons c rest =>
                                simp only [Bool.and_eq_true, decide_eq_true_eq] at h4
                                obtain ⟨⟨hc, hl⟩, hx⟩ := h4
                                constructor
                                · simp [List.length_cons, hl]
                                · simp only [List.all_cons, Bool.and_eq_true]
                                  refine ⟨?_, hx⟩
                                  rcases hc with h | h | h | h | h | h <;> subst h <;> decide

/-- C9: the payment-initiation endpoint accepts an amount exactly when
0 < amount ≤ 1,000,000 (the inclusive boundary 1,000,000 is accepted;
0 and 1,000,000.01 are rejected with 400), and it rejects with 400
every provided idempotency key that is not UUID-shaped (the route in
fact requires the stricter UUID-v4 shape, so any non-UUID-shaped key is
rejected). -/
theorem payments_route_validation :
    (∀ a : ℚ, amountRejected a = false ↔ (0 < a ∧ a ≤ 1000000)) ∧
    amountRejected 1000000 = false ∧
    amountRejected 0 = true ∧
    amountRejected (1000000 + 1 / 100) = true ∧
    (∀ (env : Nat → Bool) (sys : Sys) (vendorId : String) (a : ℚ)
        (cr d : Option String) (key : String),
      vendorId ≠ "" → amountRejected a = false → isUuidShaped key = false →
      paymentsPost env sys vendorId a cr d (some key) =
        (sys, RouteResult.badRequest "Invalid idempotency key format (must be UUID)")) ∧
    (∀ (env : Nat → Bool) (sys : Sys) (vendorId : String) (a : ℚ)
        (cr d : Option String) (key : Option String),
      vendorId ≠ "" → amountRejected a = true →
      paymentsPost env sys vendorId a cr d key =
        (sys, RouteResult.badRequest "Valid amountSgd is required (must be > 0 and <= 1,000,000)")) := by
  refine ⟨?_, ?_, ?_, ?_, ?_, ?_⟩
  · intro a
    unfold amountRejected validateAmount
    by_cases h1 : a = 0
    · subst h1
      simp
    · by_cases h2 : 0 < a ∧ a ≤ 1000000
      · simp [h1, h2.1, h2.2]
      · simp [h1, h2]
  · unfold amountRejected validateAmount
    norm_num
  · unfold amountRejected validateAmount
    norm_num
  · unfold amountRejected validateAmount
    norm_num
  · intro env sys vendorId a cr d key hv ha hk
    have hvalid : validateIdempotencyKey key = false := by
      cases hval : validateIdempotencyKey key with
      | false => rfl
      | true => rw [validateIdempotencyKey_implies_shaped key hval] at hk; cases hk
    unfold paymentsPost
    rw [if_neg hv, if_neg (by simp [ha]), if_pos (by simp [hvalid])]
  · intro env sys vendorId a cr d key hv ha
    unfold paymentsPost
    rw [if_neg hv, if_pos (by simp [ha])]

/-- Witness for C9 at the concrete boundary amounts and a concrete
malformed idempotency key. -/
theorem payments_route_validation_witness :
    (amountRejected 5 = false ↔ (0 < (5 : ℚ) ∧ (5 : ℚ) ≤ 1000000)) ∧
    amountRejected 1000000 = false ∧
    amountRejected 0 = true ∧
    amountRejected (1000000 + 1 / 100) = true ∧
    paymentsPost envOk sysW "v1" 5 none none (some "not-a-uuid") =
      (sysW, RouteResult.badRequest "Invalid idempotency key format (must be UUID)") ∧
    paymentsPost envOk sysW "v1" 0 none none none =
      (sysW, RouteResult.badRequest "Valid amountSgd is required (must be > 0 and <= 1,000,000)") :=
  ⟨payments_route_validation.1 5,
   payments_route_validation.2.1,
   payments_route_validation.2.2.1,
   payments_route_validation.2.2.2.1,
   payments_route_validation.2.2.2.2.1 envOk sysW "v1" 5 none none "not-a-uuid"
     (by decide) (by norm_num [amountRejected, validateAmount]) (by decide),
   payments_route_validation.2.2.2.2.2 envOk sysW "v1" 0 none none none
     (by decide) (by norm_num [amountRejected, validateAmount])⟩

/-! ### Webhook reconciler theorems -/

/-- C4: replaying an external event id whose stored WebhookEvent row is
already marked processed answers 200 `already_processed` and performs no
mutation at all: the entire store (payments, transactions, webhook
events) is returned unchanged. -/
theorem webhook_dedup (cfg : CircleConfig) (hmacHex : String → String → String)
    (sys : Sys) (req : WebhookRequest) (ev : WebhookEvent)
    (hsig : sigStage cfg hmacHex req = none)
    (hev : sys.db.webhookEvents.find? (fun w => w.circleEventId = req.eventId) = some ev)
    (hproc : ev.processed = true) :
    ingest cfg hmacHex sys req = (sys, IngestResult.ok "already_processed") := by
  unfold ingest
  rw [hsig]
  dsimp only
  rw [hev]
  dsimp only
  rw [if_pos hproc]

/-- A processed webhook event row. -/
def evW : WebhookEvent :=
  { id := "w1", circleEventId := "e1", eventType := "payout.completed",
    payload := "x", processed := true }

/-- A store holding just that processed event. -/
def sysE : Sys := { db := { webhookEvents := [evW] }, now := 0 }

/-- A replay of the same external event id. -/
def reqE : WebhookRequest :=
  { signature := none, eventType := "payout.completed", eventId := "e1",
    dataId := "d", payload := "x" }

/-- A configuration without a webhook secret. -/
def cfgN : CircleConfig := { webhookSecret := none }

/-- A configuration with the secret "s". -/
def cfgS : CircleConfig := { webhookSecret := some "s" }

/-- Witness for C4: the concrete replay is answered `already_processed`
with the store untouched. -/
theorem webhook_dedup_witness :
    ingest cfgN (fun _ _ => "") sysE reqE = (sysE, IngestResult.ok "already_processed") :=
  webhook_dedup cfgN (fun _ _ => "") sysE reqE evW rfl rfl rfl

/-- An inbound webhook carrying an empty signature header. -/
def reqC6 : WebhookRequest :=
  { signature := some "", eventType := "t", eventId := "e", dataId := "d",
    payload := "b" }

/-- An empty store. -/
def sysC6 : Sys := { db := {}, now := 0 }

/-- A stand-in HMAC function returning the fixed hex digest "aa". -/
def hmacA : String → String → String := fun _ _ => "aa"

/-- Counterexample to C6 as stated: with a secret configured and a
signature header ("" here) that does not equal the hex HMAC of the body
("aa"), the request is answered 500 — not 401 — because
`crypto.timingSafeEqual` throws on buffers of different byte length and
the route's catch-all converts the exception into a 500.  (No
WebhookEvent row is persisted either way.) -/
theorem webhook_signature_counterexample :
    reqC6.signature = some "" ∧ "" ≠ hmacA "s" reqC6.payload ∧
    ingest cfgS hmacA sysC6 reqC6 = (sysC6, IngestResult.serverError) ∧
    IngestResult.serverError ≠ IngestResult.unauthorized :=
  ⟨rfl, by decide, rfl, by decide⟩

/-- C6 (amended): when a secret is configured, a signature header that
hex-decodes to the same byte length as but different bytes from the
HMAC digest is answered 401 with no store mutation; a missing header or
one whose hex decoding has a different byte length makes the comparison
throw and is answered 500, also with no mutation; with no secret
configured the signature check is skipped — the outcome is independent
of the signature header.  (Hex decoding is case-insensitive, so the
comparison is on decoded bytes, not on the literal header string.) -/
theorem webhook_signature_spec :
    (∀ (cfg : CircleConfig) (hmacHex : String → String → String) (sys : Sys)
        (req : WebhookRequest) (secret sig : String),
      cfg.webhookSecret = some secret → secret ≠ "" → req.signature = some sig →
      (hexDecodeGreedy sig.data).length =
        (hexDecodeGreedy (hmacHex secret req.payload).data).length →
      hexDecodeGreedy sig.data ≠ hexDecodeGreedy (hmacHex secret req.payload).data →
      ingest cfg hmacHex sys req = (sys, IngestResult.unauthorized)) ∧
    (∀ (cfg : CircleConfig) (hmacHex : String → String → String) (sys : Sys)
        (req : WebhookRequest) (secret sig : String),
      cfg.webhookSecret = some secret → secret ≠ "" → req.signature = some sig →
      (hexDecodeGreedy sig.data).length ≠
        (hexDecodeGreedy (hmacHex secret req.payload).data).length →
      ingest cfg hmacHex sys req = (sys, IngestResult.serverError)) ∧
    (∀ (cfg : CircleConfig) (hmacHex : String → String → String) (sys : Sys)
        (req : WebhookRequest) (secret : String),
      cfg.webhookSecret = some secret → secret ≠ "" → req.signature = none →
      ingest cfg hmacHex sys req = (sys, IngestResult.serverError)) ∧
    (∀ (hmacHex : String → String → String) (sys : Sys) (req : WebhookRequest)
        (sig1 sig2 : Option String),
      ingest { webhookSecret := none } hmacHex sys { req with signature := sig1 } =
        ingest { webhookSecret := none } hmacHex sys { req with signature := sig2 }) := by
  refine ⟨?_, ?_, ?_, ?_⟩
  · intro cfg hmacHex sys req secret sig hcfg hs hsig hlen hne
    unfold ingest sigStage verifyWebhookSignature timingSafeEqualE
    rw [hcfg]
    dsimp only
    rw [if_neg hs, if_neg hs, hsig]
    dsimp only
    rw [if_pos hlen]
    have hd : decide (hexDecodeGreedy sig.data =
        hexDecodeGreedy (hmacHex secret req.payload).data) = false :=
      decide_eq_false hne
    rw [hd]
  · intro cfg hmacHex sys req secret sig hcfg hs hsig hlen
    unfold ingest sigStage verifyWebhookSignature timingSafeEqualE
    rw [hcfg]
    dsimp only
    rw [if_neg hs, if_neg hs, hsig]
    dsimp only
    rw [if_neg hlen]
  · intro cfg hmacHex sys req secret hcfg hs hsig
    unfold ingest sigStage verifyWebhookSignature
    rw [hcfg]
    dsimp only
    rw [if_neg hs, if_neg hs, hsig]
  · intro hmacHex sys req sig1 sig2
    unfold ingest sigStage
    rfl

/-- Witness for C6 (amended), exercising all four cases concretely. -/
theorem webhook_signature_spec_witness :
    ingest cfgS hmacA sysC6 { reqC6 with signature := some "bb" } =
      (sysC6, IngestResult.unauthorized) ∧
    ingest cfgS hmacA sysC6 { reqC6 with signature := some "b" } =
      (sysC6, IngestResult.serverError) ∧
    ingest cfgS hmacA sysC6 { reqC6 with signature := none } =
      (sysC6, IngestResult.serverError) ∧
    ingest cfgN hmacA sysE { reqE with signature := some "zz" } =
      ingest cfgN hmacA sysE { reqE with signature := none } :=
  ⟨webhook_signature_spec.1 cfgS hmacA sysC6 { reqC6 with signature := some "bb" }
      "s" "bb" rfl (by decide) rfl (by decide) (by decide),
   webhook_signature_spec.2.1 cfgS hmacA sysC6 { reqC6 with signature := some "b" }
      "s" "b" rfl (by decide) rfl (by decide),
   webhook_signature_spec.2.2.1 cfgS hmacA sysC6 { reqC6 with signature := none }
      "s" rfl (by decide) rfl,
   webhook_signature_spec.2.2.2 hmacA sysE reqE (some "zz") none⟩

/-- Dispatch: a `transfer.failed` event is routed to
`handleTransferFailed`. -/
theorem processWebhookEvent_transfer_failed (sys : Sys) (req : WebhookRequest)
    (wid : String) (h : req.eventType = "transfer.failed") :
    processWebhookEvent sys req wid = handleTransferFailed sys req wid := by
  unfold processWebhookEvent
  rw [h]
  rfl

/-- Dispatch: a `payout.completed` event is routed to
`handlePayoutCompleted`. -/
theorem processWebhookEvent_payout_completed (sys : Sys) (req : WebhookRequest)
    (wid : String) (h : req.eventType = "payout.completed") :
    processWebhookEvent sys req wid = handlePayoutCompleted sys req wid := by
  unfold processWebhookEvent
  rw [h]
  rfl

/-- For a not-yet-seen external event id (passing the signature stage),
the route stores a fresh unprocessed WebhookEvent row and hands over to
the handler stage. -/
theorem ingest_fresh (cfg : CircleConfig) (hmacHex : String → String → String)
    (sys : Sys) (req : WebhookRequest)
    (hsig : sigStage cfg hmacHex req = none)
    (hnew : sys.db.webhookEvents.find? (fun w => w.circleEventId = req.eventId) = none) :
    ingest cfg hmacHex sys req =
      ingestProcess
        { sys with db := { sys.db with webhookEvents := sys.db.webhookEvents ++
            [{ id := "wh-" ++ toString sys.now
               circleEventId := req.eventId
               eventType := req.eventType
               payload := req.payload
               processed := false }] } }
        req ("wh-" ++ toString sys.now) := by
  unfold ingest
  rw [hsig]
  dsimp only
  rw [hnew]

/-- After a successful handler run, `ingestProcess` only touches the
webhook-event table (marking the row processed) and answers 200
`processed`. -/
theorem ingestProcess_ok (sys : Sys) (req : WebhookRequest) (wid : String)
    (s2 : Sys) (h : processWebhookEvent sys req wid = (s2, .ok ()))
    (hW : (s2.db.webhookEvents.find? (fun w => w.id = wid)).isSome) :
    (ingestProcess sys req wid).1.db.payments = s2.db.payments ∧
    (ingestProcess sys req wid).1.db.transactions = s2.db.transactions ∧
    (ingestProcess sys req wid).2 = IngestResult.ok "processed" := by
  unfold ingestProcess
  rw [h]
  dsimp only
  unfold updateWebhookEvent
  cases hf : s2.db.webhookEvents.find? (fun w => w.id = wid) with
  | none => rw [hf] at hW; simp at hW
  | some w =>
      dsimp only
      exact ⟨rfl, rfl, rfl⟩

/-- Effect of `handleTransferFailed` when the correlation id matches a
transaction and the owning payment exists: the transaction row is set
FAILED; the owning payment is set FAILED exactly when the transaction
is the PAYOUT leg, and the payments table is untouched otherwise. -/
theorem handleTransferFailed_spec (sys : Sys) (req : WebhookRequest) (wid : String)
    (tx : Transaction) (pay : Payment)
    (htx : sys.db.transactions.find?
      (fun t => t.circleTransactionId = some req.dataId) = some tx)
    (hpay : findPayment sys.db tx.paymentId = some pay)
    (hW : (sys.db.webhookEvents.find? (fun w => w.id = wid)).isSome) :
    ∃ s2, handleTransferFailed sys req wid = (s2, .ok ()) ∧
      s2.db.transactions = sys.db.transactions.map
        (fun t => if t.id = tx.id then { t with status := TransactionStatus.FAILED } else t) ∧
      (tx.type = TransactionType.PAYOUT →
        findPayment s2.db tx.paymentId = some { pay with status := PaymentStatus.FAILED }) ∧
      (tx.type ≠ TransactionType.PAYOUT → s2.db.payments = sys.db.payments) ∧
      (s2.db.webhookEvents.find? (fun w => w.id = wid)).isSome := by
  have htxmem : tx ∈ sys.db.transactions := List.mem_of_find?_eq_some htx
  have hidSome : (sys.db.transactions.find? (fun t => t.id = tx.id)).isSome :=
    List.find?_isSome.mpr ⟨tx, htxmem, by simp⟩
  have hpay2 : findPayment
      { sys.db with transactions := sys.db.transactions.map fun t =>
          if t.id = tx.id then { t with status := TransactionStatus.FAILED } else t }
      tx.paymentId = some pay := hpay
  unfold handleTransferFailed
  rw [htx]
  dsimp only
  unfold updateTransaction
  cases hidf : sys.db.transactions.find? (fun t => t.id = tx.id) with
  | none => rw [hidf] at hidSome; simp at hidSome
  | some t0 =>
      dsimp only
      by_cases hP : tx.type = TransactionType.PAYOUT
      · rw [if_pos hP]
        rw [updatePayment_ok (fun p => { p with status := PaymentStatus.FAILED }) hpay2]
        dsimp only
        unfold updateWebhookEvent
        cases hwf : sys.db.webhookEvents.find? (fun w => w.id = wid) with
        | none => rw [hwf] at hW; simp at hW
        | some w0 =>
            dsimp only
            refine ⟨_, rfl, rfl, fun _ => ?_, fun hc => absurd hP hc, ?_⟩
            · exact findPayment_map_upd _ (fun q => rfl) hpay2
            · rw [find?_map_invariant (fun w : WebhookEvent => decide (w.id = wid))
                _ (fun a => by dsimp only; split <;> rfl)]
              rw [hwf]
              simp
      · rw [if_neg hP]
        dsimp only
        unfold updateWebhookEvent
        cases hwf : sys.db.webhookEvents.find? (fun w => w.id = wid) with
        | none => rw [hwf] at hW; simp at hW
        | some w0 =>
            dsimp only
            refine ⟨_, rfl, rfl, fun hc => absurd hc hP, fun _ => rfl, ?_⟩
            rw [find?_map_invariant (fun w : WebhookEvent => decide (w.id = wid))
              _ (fun a => by dsimp only; split <;> rfl)]
            rw [hwf]
            simp

/-- Effect of `handlePayoutCompleted` when the correlation id matches a
transaction and the owning payment exists (in any state): the
transaction is set CONFIRMED and the payment is set COMPLETED with a
fresh actual settlement time, unconditionally. -/
theorem handlePayoutCompleted_spec (sys : Sys) (req : WebhookRequest) (wid : String)
    (tx : Transaction) (pay : Payment)
    (htx : sys.db.transactions.find?
      (fun t => t.circleTransactionId = some req.dataId) = some tx)
    (hpay : findPayment sys.db tx.paymentId = some pay)
    (hW : (sys.db.webhookEvents.find? (fun w => w.id = wid)).isSome) :
    ∃ s2, handlePayoutCompleted sys req wid = (s2, .ok ()) ∧
      s2.db.transactions = sys.db.transactions.map
        (fun t => if t.id = tx.id then { t with status := TransactionStatus.CONFIRMED } else t) ∧
      findPayment s2.db tx.paymentId = some
        { pay with
          status := PaymentStatus.COMPLETED
          actualSettlementTime := some sys.now } ∧
      (s2.db.webhookEvents.find? (fun w => w.id = wid)).isSome := by
  have htxmem : tx ∈ sys.db.transactions := List.mem_of_find?_eq_some htx
  have hidSome : (sys.db.transactions.find? (fun t => t.id = tx.id)).isSome :=
    List.find?_isSome.mpr ⟨tx, htxmem, by simp⟩
  have hpay2 : findPayment
      { sys.db with transactions := sys.db.transactions.map fun t =>
          if t.id = tx.id then { t with status := TransactionStatus.CONFIRMED } else t }
      tx.paymentId = some pay := hpay
  unfold handlePayoutCompleted
  rw [htx]
  dsimp only
  unfold updateTransaction
  cases hidf : sys.db.transactions.find? (fun t => t.id = tx.id) with
  | none => rw [hidf] at hidSome; simp at hidSome
  | some t0 =>
      dsimp only
      rw [updatePayment_ok
        (fun p => { p with
          status := PaymentStatus.COMPLETED
          actualSettlementTime := some sys.now }) hpay2]
      dsimp only
      unfold updateWebhookEvent
      cases hwf : sys.db.webhookEvents.find? (fun w => w.id = wid) with
      | none => rw [hwf] at hW; simp at hW
      | some w0 =>
          dsimp only
          refine ⟨_, rfl, rfl, ?_, ?_⟩
          · exact findPayment_map_upd _ (fun q => rfl) hpay2
          · rw [find?_map_invariant (fun w : WebhookEvent => decide (w.id = wid))
              _ (fun a => by dsimp only; split <;> rfl)]
            rw [hwf]
            simp

/-- C8: for a fresh `transfer.failed` event whose correlation id
matches a stored transaction (with its owning payment present), ingest
answers 200 `processed`, marks that transaction FAILED, and marks the
owning payment FAILED exactly when the matched transaction is the
PAYOUT leg — otherwise the payments table is untouched. -/
theorem transfer_failed_marks (cfg : CircleConfig)
    (hmacHex : String → String → String) (sys : Sys) (req : WebhookRequest)
    (tx : Transaction) (pay : Payment)
    (hsig : sigStage cfg hmacHex req = none)
    (hnew : sys.db.webhookEvents.find? (fun w => w.circleEventId = req.eventId) = none)
    (htype : req.eventType = "transfer.failed")
    (htx : sys.db.transactions.find?
      (fun t => t.circleTransactionId = some req.dataId) = some tx)
    (hpay : findPayment sys.db tx.paymentId = some pay) :
    (ingest cfg hmacHex sys req).1.db.transactions =
      sys.db.transactions.map
        (fun t => if t.id = tx.id then { t with status := TransactionStatus.FAILED } else t) ∧
    (tx.type = TransactionType.PAYOUT →
      findPayment (ingest cfg hmacHex sys req).1.db tx.paymentId =
        some { pay with status := PaymentStatus.FAILED }) ∧
    (tx.type ≠ TransactionType.PAYOUT →
      (ingest cfg hmacHex sys req).1.db.payments = sys.db.payments) ∧
    (ingest cfg hmacHex sys req).2 = IngestResult.ok "processed" := by
  rw [ingest_fresh cfg hmacHex sys req hsig hnew]
  have hW : (((sys.db.webhookEvents ++
      [{ id := "wh-" ++ toString sys.now
         circleEventId := req.eventId
         eventType := req.eventType
         payload := req.payload
         processed := false }]) : List WebhookEvent).find?
      (fun w => w.id = "wh-" ++ toString sys.now)).isSome := by
    apply List.find?_isSome.mpr
    refine ⟨_, List.mem_append_right _ (List.mem_singleton_self _), by simp⟩
  obtain ⟨s2, hh, hTX, hPos, hNeg, hW2⟩ :=
    handleTransferFailed_spec
      { sys with db := { sys.db with webhookEvents := sys.db.webhookEvents ++
          [{ id := "wh-" ++ toString sys.now
             circleEventId := req.eventId
             eventType := req.eventType
             payload := req.payload
             processed := false }] } }
      req ("wh-" ++ toString sys.now) tx pay htx hpay hW
  obtain ⟨hio1, hio2, hio3⟩ :=
    ingestProcess_ok
      { sys with db := { sys.db with webhookEvents := sys.db.webhookEvents ++
          [{ id := "wh-" ++ toString sys.now
             circleEventId := req.eventId
             eventType := req.eventType
             payload := req.payload
             processed := false }] } }
      req ("wh-" ++ toString sys.now) s2
      (by rw [processWebhookEvent_transfer_failed _ _ _ htype]; exact hh) hW2
  refine ⟨?_, ?_, ?_, hio3⟩
  · rw [hio2, hTX]
  · intro hP
    unfold findPayment
    rw [hio1]
    exact hPos hP
  · intro hP
    rw [hio1]
    exact hNeg hP

/-- C10: for a fresh `payout.completed` event whose correlation id
matches a stored transaction, ingest unconditionally sets that
transaction CONFIRMED and the owning payment COMPLETED with a fresh
`actualSettlementTime` — the owning payment `pay` is arbitrary here, so
in particular a payment already in the terminal FAILED (or COMPLETED)
state is moved to COMPLETED and its settlement time overwritten. -/
theorem payout_completed_overrides (cfg : CircleConfig)
    (hmacHex : String → String → String) (sys : Sys) (req : WebhookRequest)
    (tx : Transaction) (pay : Payment)
    (hsig : sigStage cfg hmacHex req = none)
    (hnew : sys.db.webhookEvents.find? (fun w => w.circleEventId = req.eventId) = none)
    (htype : req.eventType = "payout.completed")
    (htx : sys.db.transactions.find?
      (fun t => t.circleTransactionId = some req.dataId) = some tx)
    (hpay : findPayment sys.db tx.paymentId = some pay) :
    (ingest cfg hmacHex sys req).1.db.transactions =
      sys.db.transactions.map
        (fun t => if t.id = tx.id then { t with status := TransactionStatus.CONFIRMED } else t) ∧
    findPayment (ingest cfg hmacHex sys req).1.db tx.paymentId =
      some { pay with
        status := PaymentStatus.COMPLETED
        actualSettlementTime := some sys.now } ∧
    (ingest cfg hmacHex sys req).2 = IngestResult.ok "processed" := by
  rw [ingest_fresh cfg hmacHex sys req hsig hnew]
  have hW : (((sys.db.webhookEvents ++
      [{ id := "wh-" ++ toString sys.now
         circleEventId := req.eventId
         eventType := req.eventType
         payload := req.payload
         processed := false }]) : List WebhookEvent).find?
      (fun w => w.id = "wh-" ++ toString sys.now)).isSome := by
    apply List.find?_isSome.mpr
    refine ⟨_, List.mem_append_right _ (List.mem_singleton_self _), by simp⟩
  obtain ⟨s2, hh, hTX, hPay, hW2⟩ :=
    handlePayoutCompleted_spec
      { sys with db := { sys.db with webhookEvents := sys.db.webhookEvents ++
          [{ id := "wh-" ++ toString sys.now
             circleEventId := req.eventId
             eventType := req.eventType
             payload := req.payload
             processed := false }] } }
      req ("wh-" ++ toString sys.now) tx pay htx hpay hW
  obtain ⟨hio1, hio2, hio3⟩ :=
    ingestProcess_ok
      { sys with db := { sys.db with webhookEvents := sys.db.webhookEvents ++
          [{ id := "wh-" ++ toString sys.now
             circleEventId := req.eventId
             eventType := req.eventType
             payload := req.payload
             processed := false }] } }
      req ("wh-" ++ toString sys.now) s2
      (by rw [processWebhookEvent_payout_completed _ _ _ htype]; exact hh) hW2
  refine ⟨?_, ?_, hio3⟩
  · rw [hio2, hTX]
  · unfold findPayment
    rw [hio1]
    exact hPay

/-- A PENDING payout-leg transaction with correlation id "ct1". -/
def txF : Transaction :=
  { id := "t1", paymentId := "p1", type := TransactionType.PAYOUT,
    status := TransactionStatus.PENDING, amount := 7, currency := "USD",
    circleTransactionId := some "ct1", createdAt := 0 }

/-- Its owning payment, already in the terminal FAILED state with an
old settlement timestamp. -/
def payF : Payment :=
  { id := "p1", idempotencyKey := "kk", vendorId := "v1", amountSgd := 7,
    status := PaymentStatus.FAILED, actualSettlementTime := some 3 }

/-- A store holding that payment and transaction. -/
def sysF : Sys :=
  { db := { payments := [payF], transactions := [txF] }, now := 9 }

/-- A fresh `transfer.failed` event correlated with `txF`. -/
def reqTF : WebhookRequest :=
  { signature := none, eventType := "transfer.failed", eventId := "e9",
    dataId := "ct1", payload := "pl" }

/-- A fresh `payout.completed` event correlated with `txF`. -/
def reqPC : WebhookRequest :=
  { signature := none, eventType := "payout.completed", eventId := "e10",
    dataId := "ct1", payload := "pl" }

/-- Witness for C8 at the concrete store: the PAYOUT transaction is
marked FAILED and the owning payment marked FAILED. -/
theorem transfer_failed_marks_witness :
    (ingest cfgN hmacA sysF reqTF).1.db.transactions =
      sysF.db.transactions.map
        (fun t => if t.id = txF.id then { t with status := TransactionStatus.FAILED } else t) ∧
    (txF.type = TransactionType.PAYOUT →
      findPayment (ingest cfgN hmacA sysF reqTF).1.db txF.paymentId =
        some { payF with status := PaymentStatus.FAILED }) ∧
    (txF.type ≠ TransactionType.PAYOUT →
      (ingest cfgN hmacA sysF reqTF).1.db.payments = sysF.db.payments) ∧
    (ingest cfgN hmacA sysF reqTF).2 = IngestResult.ok "processed" :=
  transfer_failed_marks cfgN hmacA sysF reqTF txF payF rfl rfl rfl rfl rfl

/-- Witness for C10 at the concrete store: the payment is already
FAILED with settlement time 3, yet the payout.completed event moves it
to COMPLETED and overwrites the settlement time with the current clock
value 9. -/
theorem payout_completed_overrides_witness :
    (ingest cfgN hmacA sysF reqPC).1.db.transactions =
      sysF.db.transactions.map
        (fun t => if t.id = txF.id then { t with status := TransactionStatus.CONFIRMED } else t) ∧
    findPayment (ingest cfgN hmacA sysF reqPC).1.db txF.paymentId =
      some { payF with
        status := PaymentStatus.COMPLETED
        actualSettlementTime := some sysF.now } ∧
    (ingest cfgN hmacA sysF reqPC).2 = IngestResult.ok "processed" :=
  payout_completed_overrides cfgN hmacA sysF reqPC txF payF rfl rfl rfl rfl rfl

/-! ### Conservation (C2) and transaction ordering (C3) -/

/-- A PENDING payment over 1000 SGD against `venW`. -/
def pC : Payment :=
  { id := "p1", idempotencyKey := "kc", vendorId := "v1", amountSgd := 1000,
    status := PaymentStatus.PENDING }

/-- A store holding `venW` and `pC`, ready for the pipeline. -/
def sysC : Sys := { db := { vendors := [venW], payments := [pC] }, now := 0 }

/-- Counterexample to C2 as stated: on a COMPLETED run over 1000 SGD the
realized destination amount stored on the payment is 740 USD — exactly
sourceAmount × rate(SGD→USDC) × rate(USDC→USD) — while the per-step fees
recorded on the transaction rows sum to 2.96 (in destination currency:
the USDC→USD rate is 1).  The claimed value, source × rates minus the
fee sum, is 740 − 2.96 = 737.04 ≠ 740 — a 0.4% gap, far beyond rounding
tolerance: the code records fees but never deducts them. -/
theorem conservation_counterexample :
    (pipelineSteps envOk sysC "p1").2 = .ok () ∧
    (findPayment (pipelineSteps envOk sysC "p1").1.db "p1").map Payment.amountUsd =
      some (some 740) ∧
    ((txsOf (pipelineSteps envOk sysC "p1").1.db "p1").filterMap Transaction.fees).sum =
      296 / 100 ∧
    (740 : ℚ) ≠ 740 - 296 / 100 := by
  have h := pipeline_success envOk (fun i => rfl) sysC "p1" pC venW rfl rfl rfl (by decide)
  rw [h]
  refine ⟨rfl, ?_, ?_, by norm_num⟩
  · simp [findPayment, donePayment, pC, sysC, getExchangeRate]
    norm_num
  · simp [txsOf, sysC, pC, txPaymentInDone, txExchange1, txExchange2, txPayout,
      getExchangeRate, List.filterMap]
    norm_num

/-- C2 (amended): for every payment driven to COMPLETED by a fault-free
pipeline run, the realized destination amount persisted on the payment
equals sourceAmount × rate(SGD→USDC) × rate(USDC→USD) — the per-step
fees (0.1% on each exchange leg, 0.2% on the payout, each proportional
to that step's transacted amount) are recorded on the transaction rows
but are NOT subtracted from the realized amount. -/
theorem conservation_amended (env : Nat → Bool) (henv : ∀ i, env i = false)
    (s : Sys) (pid : String) (p : Payment) (ven : Vendor)
    (Hp : findPayment s.db pid = some p)
    (Ht : txsOf s.db pid = [])
    (Hv : s.db.vendors.find? (fun v => v.id = p.vendorId) = some ven)
    (Hb : ven.bankAccount ≠ none) :
    (pipelineSteps env s pid).2 = .ok () ∧
    ∃ pF, findPayment (pipelineSteps env s pid).1.db pid = some pF ∧
      pF.amountUsd = some (p.amountSgd * getExchangeRate "SGD" "USDC" *
        getExchangeRate "USDC" "USD") ∧
      (txsOf (pipelineSteps env s pid).1.db pid).map Transaction.fees =
        [none,
         some (p.amountSgd * getExchangeRate "SGD" "USDC" * (1 / 1000)),
         some (p.amountSgd * getExchangeRate "SGD" "USDC" *
           getExchangeRate "USDC" "USD" * (1 / 1000)),
         some (p.amountSgd * getExchangeRate "SGD" "USDC" *
           getExchangeRate "USDC" "USD" * (2 / 1000))] := by
  have h := pipeline_success env henv s pid p ven Hp Ht Hv Hb
  have hfilT : List.filter (fun t => decide (t.paymentId = pid)) s.db.transactions = [] := Ht
  rw [h]
  refine ⟨rfl, donePayment p p.amountSgd s.now, ?_, rfl, ?_⟩
  · exact findPayment_map_upd (fun q => donePayment q p.amountSgd s.now)
      (fun q => rfl) Hp
  · simp [txsOf, List.filter_append, hfilT, txPaymentInDone, txExchange1,
      txExchange2, txPayout]

/-- Witness for C2 (amended) at the concrete store `sysC`. -/
theorem conservation_amended_witness :
    (pipelineSteps envOk sysC "p1").2 = .ok () ∧
    ∃ pF, findPayment (pipelineSteps envOk sysC "p1").1.db "p1" = some pF ∧
      pF.amountUsd = some (pC.amountSgd * getExchangeRate "SGD" "USDC" *
        getExchangeRate "USDC" "USD") ∧
      (txsOf (pipelineSteps envOk sysC "p1").1.db "p1").map Transaction.fees =
        [none,
         some (pC.amountSgd * getExchangeRate "SGD" "USDC" * (1 / 1000)),
         some (pC.amountSgd * getExchangeRate "SGD" "USDC" *
           getExchangeRate "USDC" "USD" * (1 / 1000)),
         some (pC.amountSgd * getExchangeRate "SGD" "USDC" *
           getExchangeRate "USDC" "USD" * (2 / 1000))] :=
  conservation_amended envOk (fun i => rfl) sysC "p1" pC venW rfl rfl rfl (by decide)

/-- C3: (1) the transactions returned by `getPaymentStatus` are in
non-decreasing creation-time order, for every payment and store; (2) a
payment driven to COMPLETED by a fault-free pipeline run gets exactly
the transaction sequence PAYMENT_IN, EXCHANGE_SGD_TO_USDC,
EXCHANGE_USDC_TO_USD, PAYOUT, appended in that order to the end of the
transactions table with strictly increasing creation times, and the
rows present before the run are never deleted. -/
theorem transaction_ordering :
    (∀ (sys : Sys) (pid : String) (r : PaymentStatusResponse),
      getPaymentStatus sys pid = .ok r →
      List.Pairwise (fun a b => a.createdAt ≤ b.createdAt) r.transactions) ∧
    (∀ (env : Nat → Bool), (∀ i, env i = false) →
      ∀ (s : Sys) (pid : String) (p : Payment) (ven : Vendor),
      findPayment s.db pid = some p →
      txsOf s.db pid = [] →
      s.db.vendors.find? (fun v => v.id = p.vendorId) = some ven →
      ven.bankAccount ≠ none →
      (pipelineSteps env s pid).2 = .ok () ∧
      (∃ pF, findPayment (pipelineSteps env s pid).1.db pid = some pF ∧
        pF.status = PaymentStatus.COMPLETED) ∧
      (pipelineSteps env s pid).1.db.transactions = s.db.transactions ++
        [txPaymentInDone pid p.amountSgd s.now,
         txExchange1 pid p.amountSgd s.now,
         txExchange2 pid p.amountSgd s.now,
         txPayout pid p.amountSgd s.now] ∧
      (txsOf (pipelineSteps env s pid).1.db pid).map Transaction.type =
        [TransactionType.PAYMENT_IN, TransactionType.EXCHANGE_SGD_TO_USDC,
         TransactionType.EXCHANGE_USDC_TO_USD, TransactionType.PAYOUT] ∧
      List.Pairwise (fun a b => a.createdAt < b.createdAt)
        (txsOf (pipelineSteps env s pid).1.db pid)) := by
  constructor
  · intro sys pid r h
    unfold getPaymentStatus at h
    cases hfp : findPayment sys.db pid with
    | none => rw [hfp] at h; cases h
    | some payment =>
        rw [hfp] at h
        dsimp only at h
        cases hv : sys.db.vendors.find? (fun v => v.id = payment.vendorId) with
        | none => rw [hv] at h; cases h
        | some vendor =>
            rw [hv] at h
            dsimp only at h
            injection h with h
            subst h
            dsimp only
            rw [List.pairwise_map]
            exact List.sorted_insertionSort txLE (txsOf sys.db pid)
  · intro env henv s pid p ven Hp Ht Hv Hb
    have h := pipeline_success env henv s pid p ven Hp Ht Hv Hb
    have hfilT : List.filter (fun t => decide (t.paymentId = pid)) s.db.transactions = [] := Ht
    refine ⟨?_, ⟨donePayment p p.amountSgd s.now, ?_, rfl⟩, ?_, ?_, ?_⟩
    · rw [h]
    · rw [h]
      exact findPayment_map_upd (fun q => donePayment q p.amountSgd s.now)
        (fun q => rfl) Hp
    · rw [h]
    · rw [h]
      simp [txsOf, List.filter_append, hfilT, txPaymentInDone, txExchange1,
        txExchange2, txPayout]
    · rw [h]
      simp only [txsOf, List.filter_append, hfilT]
      simp [txPaymentInDone, txExchange1, txExchange2, txPayout]
      omega

/-- The response `getPaymentStatus` returns for `pC` on `sysC`. -/
def rC : PaymentStatusResponse :=
  { paymentId := "p1", status := PaymentStatus.PENDING, amountSgd := 1000,
    amountUsd := none, exchangeRate := none, vendorName := "", vendorEmail := "",
    transactions := [], expectedSettlementTime := none,
    actualSettlementTime := none }

/-- Witness for C3: both parts at the concrete store `sysC`. -/
theorem transaction_ordering_witness :
    List.Pairwise (fun a b => a.createdAt ≤ b.createdAt) rC.transactions ∧
    ((pipelineSteps envOk sysC "p1").2 = .ok () ∧
     (∃ pF, findPayment (pipelineSteps envOk sysC "p1").1.db "p1" = some pF ∧
       pF.status = PaymentStatus.COMPLETED) ∧
     (pipelineSteps envOk sysC "p1").1.db.transactions = sysC.db.transactions ++
       [txPaymentInDone "p1" pC.amountSgd sysC.now,
        txExchange1 "p1" pC.amountSgd sysC.now,
        txExchange2 "p1" pC.amountSgd sysC.now,
        txPayout "p1" pC.amountSgd sysC.now] ∧
     (txsOf (pipelineSteps envOk sysC "p1").1.db "p1").map Transaction.type =
       [TransactionType.PAYMENT_IN, TransactionType.EXCHANGE_SGD_TO_USDC,
        TransactionType.EXCHANGE_USDC_TO_USD, TransactionType.PAYOUT] ∧
     List.Pairwise (fun a b => a.createdAt < b.createdAt)
       (txsOf (pipelineSteps envOk sysC "p1").1.db "p1")) :=
  ⟨transaction_ordering.1 sysC "p1" rC rfl,
   transaction_ordering.2 envOk (fun i => rfl) sysC "p1" pC venW rfl rfl rfl
     (by decide)⟩

end Brie
